import Mathlib

/-!
Verification development for the StorePro / "SimpleStore" inventory web application.

This file gives a shallow embedding of the server-side storage layer
(`DatabaseStorage` in `src/shared/schema.ts`), the role middleware and the
PDF helper (`src/server/routes.ts`), and proves the frozen specification
claims about them.

Modelling conventions:
* SQL `double precision` money columns are modelled as `Rat` (exact field
  arithmetic stands in for IEEE doubles; all claims are about the bookkeeping
  structure, not rounding).
* SQL `integer` columns are `Int`, `serial` primary keys are `Nat`, handed out
  by per-table `next…Id` counters in the database state.
* SQL `date` columns are calendar dates `CalDate`; `timestamp` columns
  (`createdAt`, `lastUpdated`) are abstract clock ticks (`Nat`), supplied to
  each operation as a `now` parameter, mirroring the `new Date()` calls.
* Postgres enums (`purchase_status`, `payment_status`, `return_status`,
  `user_role`) are the strings they are stored as: "pending" | "partial" |
  "completed" | "cancelled", "unpaid" | "partial" | "paid",
  "pending" | "processing" | "completed" | "rejected",
  "admin" | "cashier" | "warehouse" | "owner".
* Each storage method is a pure state transformer on the whole database
  value `DB`; a `db.transaction` block is one atomic Lean function.
-/

/-- A calendar date, the value of a SQL `date` column. -/
structure CalDate where
  year : Nat
  month : Nat
  day : Nat
deriving DecidableEq, Repr

/-- JavaScript `String.prototype.padStart(n, c)`: left-pad to length `n`. -/
def padStart (n : Nat) (c : Char) (s : String) : String :=
  if n ≤ s.length then s else String.mk (List.replicate (n - s.length) c) ++ s

/-- `date-fns` `format(d, "yyyyMMdd")`: zero-padded year-month-day digits. -/
def formatYyyyMMdd (d : CalDate) : String :=
  padStart 4 '0' (toString d.year) ++ padStart 2 '0' (toString d.month) ++
    padStart 2 '0' (toString d.day)

/-- Days-from-civil-date algorithm (proleptic Gregorian), the day count
underlying JavaScript `Date.getTime()` divided by 86 400 000 for midnight
dates.  Used for date comparisons (`gte`/`lte` on `date` columns) and the
`ageDays` arithmetic of the payable/receivable reports. -/
def civilDays (dt : CalDate) : Int :=
  let y : Int := if dt.month ≤ 2 then (dt.year : Int) - 1 else (dt.year : Int)
  let m : Int := (dt.month : Int)
  let d : Int := (dt.day : Int)
  let era : Int := (if 0 ≤ y then y else y - 399) / 400
  let yoe : Int := y - era * 400
  let mp : Int := (m + 9) % 12
  let doy : Int := (153 * mp + 2) / 5 + d - 1
  let doe : Int := yoe * 365 + yoe / 4 - yoe / 100 + doy
  era * 146097 + doe - 719468

/-- Row of the `categories` table. -/
structure Category where
  id : Nat
  name : String
  description : Option String
  createdAt : Nat
deriving DecidableEq, Repr

/-- Row of the `products` table. -/
structure Product where
  id : Nat
  code : String
  name : String
  categoryId : Nat
  costPrice : Rat
  sellPrice : Rat
  stock : Int
  lastUpdated : Nat
  createdAt : Nat
deriving DecidableEq, Repr

/-- Row of the `customers` table. -/
structure Customer where
  id : Nat
  code : String
  name : String
  phone : String
  address : String
  createdAt : Nat
deriving DecidableEq, Repr

/-- Row of the `vendors` table. -/
structure Vendor where
  id : Nat
  code : String
  name : String
  phone : String
  address : String
  createdAt : Nat
deriving DecidableEq, Repr

/-- Row of the `purchase_orders` table; `status` ranges over the
`purchase_status` enum strings. -/
structure PurchaseOrder where
  id : Nat
  orderNumber : String
  vendorId : Nat
  date : CalDate
  totalAmount : Rat
  status : String
  dueDate : Option CalDate
  notes : Option String
  createdAt : Nat
  createdBy : Nat
deriving DecidableEq, Repr

/-- Row of the `purchase_order_items` table. -/
structure PurchaseOrderItem where
  id : Nat
  purchaseOrderId : Nat
  productId : Nat
  quantity : Int
  price : Rat
  total : Rat
deriving DecidableEq, Repr

/-- Row of the `sales_orders` table; `paymentStatus` ranges over the
`payment_status` enum strings. -/
structure SalesOrder where
  id : Nat
  orderNumber : String
  customerId : Nat
  date : CalDate
  totalAmount : Rat
  paymentStatus : String
  dueDate : Option CalDate
  notes : Option String
  createdAt : Nat
  createdBy : Nat
deriving DecidableEq, Repr

/-- Row of the `sales_order_items` table. -/
structure SalesOrderItem where
  id : Nat
  salesOrderId : Nat
  productId : Nat
  quantity : Int
  price : Rat
  total : Rat
deriving DecidableEq, Repr

/-- Row of the `product_returns` table; `status` ranges over the
`return_status` enum strings. -/
structure ProductReturn where
  id : Nat
  returnNumber : String
  customerId : Nat
  salesOrderId : Option Nat
  date : CalDate
  totalAmount : Rat
  status : String
  notes : Option String
  createdAt : Nat
  createdBy : Nat
deriving DecidableEq, Repr

/-- Row of the `return_items` table. -/
structure ReturnItem where
  id : Nat
  returnId : Nat
  productId : Nat
  quantity : Int
  price : Rat
  total : Rat
deriving DecidableEq, Repr

/-- The relational database state: one list per table plus the `serial`
allocators of the tables whose generated ids the storage layer reads back. -/
structure DB where
  categories : List Category
  products : List Product
  customers : List Customer
  vendors : List Vendor
  purchaseOrders : List PurchaseOrder
  purchaseOrderItems : List PurchaseOrderItem
  salesOrders : List SalesOrder
  salesOrderItems : List SalesOrderItem
  productReturns : List ProductReturn
  returnItems : List ReturnItem
  nextPurchaseOrderId : Nat
  nextPurchaseOrderItemId : Nat
  nextSalesOrderId : Nat
  nextSalesOrderItemId : Nat
  nextProductReturnId : Nat
  nextReturnItemId : Nat
deriving DecidableEq, Repr

/-- Payload of `insertPurchaseOrderSchema` (`id`, `createdAt`, `orderNumber`
omitted). -/
structure InsertPurchaseOrder where
  vendorId : Nat
  date : CalDate
  totalAmount : Rat
  status : String
  dueDate : Option CalDate
  notes : Option String
  createdBy : Nat
deriving DecidableEq, Repr

/-- Payload of `insertPurchaseOrderItemSchema`; the `purchaseOrderId` the
client may send is ignored because `createPurchaseOrder` overwrites it with
the new order's id. -/
structure InsertPurchaseOrderItem where
  productId : Nat
  quantity : Int
  price : Rat
  total : Rat
deriving DecidableEq, Repr

/-- Payload of `insertSalesOrderSchema`. -/
structure InsertSalesOrder where
  customerId : Nat
  date : CalDate
  totalAmount : Rat
  paymentStatus : String
  dueDate : Option CalDate
  notes : Option String
  createdBy : Nat
deriving DecidableEq, Repr

/-- Payload of `insertSalesOrderItemSchema`; the fk is overwritten on insert. -/
structure InsertSalesOrderItem where
  productId : Nat
  quantity : Int
  price : Rat
  total : Rat
deriving DecidableEq, Repr

/-- Payload of `insertProductReturnSchema`. -/
structure InsertProductReturn where
  customerId : Nat
  salesOrderId : Option Nat
  date : CalDate
  totalAmount : Rat
  status : String
  notes : Option String
  createdBy : Nat
deriving DecidableEq, Repr

/-- Payload of `insertReturnItemSchema`; the fk is overwritten on insert. -/
structure InsertReturnItem where
  productId : Nat
  quantity : Int
  price : Rat
  total : Rat
deriving DecidableEq, Repr

/-- One SQL `UPDATE products SET stock = stock + delta, last_updated = now
WHERE id = pid` applied to a single row. -/
def applyDelta (now : Nat) (d : Nat × Int) (p : Product) : Product :=
  if p.id = d.1 then { p with stock := p.stock + d.2, lastUpdated := now } else p

/-- The drizzle statement
`tx.update(products).set(\x7b stock: sql(stock + delta), lastUpdated: now \x7d).where(eq(products.id, pid))`;
a decrement `stock - q` is the call with `delta = -q`. -/
def updateStockWhere (pid : Nat) (delta : Int) (now : Nat) (ps : List Product) :
    List Product :=
  ps.map (applyDelta now (pid, delta))

/-- The body of `DatabaseStorage.createPurchaseOrder`'s transaction loop:
for each item, insert the item row (with the new order's id) and bump the
product's stock by `+ item.quantity`. -/
def poInsertLoop (orderId : Nat) (now : Nat) (items : List InsertPurchaseOrderItem)
    (acc : DB) : DB :=
  items.foldl (fun acc item =>
    { acc with
      purchaseOrderItems := acc.purchaseOrderItems ++
        [{ id := acc.nextPurchaseOrderItemId, purchaseOrderId := orderId,
           productId := item.productId, quantity := item.quantity,
           price := item.price, total := item.total }],
      nextPurchaseOrderItemId := acc.nextPurchaseOrderItemId + 1,
      products := updateStockWhere item.productId item.quantity now acc.products })
    acc

/-- `DatabaseStorage.createPurchaseOrder`.  The source counts the existing
purchase orders whose `date` lies between `today.setHours(0,0,0,0)` and
`today.setHours(23,59,59,999)`; on a `date` column that range test is
equality of the calendar day, modelled as `o.date = today`.  The
`sql<number>\`count(*)\`` result is the row count (`count || 0` keeps `0`).
The transaction inserts the order row, then runs the item loop. -/
def createPurchaseOrder (db : DB) (today : CalDate) (now : Nat)
    (purchaseOrder : InsertPurchaseOrder) (items : List InsertPurchaseOrderItem) :
    PurchaseOrder × DB :=
  let dateStr := formatYyyyMMdd today
  let count := (db.purchaseOrders.filter (fun o => decide (o.date = today))).length
  let orderNumber := "PO" ++ dateStr ++ padStart 3 '0' (toString (count + 1))
  let newOrder : PurchaseOrder :=
    { id := db.nextPurchaseOrderId, orderNumber := orderNumber,
      vendorId := purchaseOrder.vendorId, date := purchaseOrder.date,
      totalAmount := purchaseOrder.totalAmount, status := purchaseOrder.status,
      dueDate := purchaseOrder.dueDate, notes := purchaseOrder.notes,
      createdAt := now, createdBy := purchaseOrder.createdBy }
  let db0 := { db with purchaseOrders := db.purchaseOrders ++ [newOrder],
                       nextPurchaseOrderId := db.nextPurchaseOrderId + 1 }
  (newOrder, poInsertLoop newOrder.id now items db0)

/-- The stock-reverting loop of `DatabaseStorage.deletePurchaseOrder`:
`stock - item.quantity` for each selected item. -/
def poDeleteLoop (now : Nat) (items : List PurchaseOrderItem) (acc : DB) : DB :=
  items.foldl (fun acc item =>
    { acc with
      products := updateStockWhere item.productId (-item.quantity) now acc.products })
    acc

/-- `DatabaseStorage.deletePurchaseOrder`: select the order's items, revert
their stock changes, delete the item rows, delete the order row. -/
def deletePurchaseOrder (db : DB) (now : Nat) (id : Nat) : DB :=
  let items := db.purchaseOrderItems.filter (fun it => decide (it.purchaseOrderId = id))
  let db1 := poDeleteLoop now items db
  { db1 with
    purchaseOrderItems :=
      db1.purchaseOrderItems.filter (fun it => decide (¬ it.purchaseOrderId = id)),
    purchaseOrders := db1.purchaseOrders.filter (fun o => decide (¬ o.id = id)) }

/-- The item loop of `DatabaseStorage.createSalesOrder`'s transaction:
insert each item row and bump the product's stock by `- item.quantity`. -/
def soInsertLoop (orderId : Nat) (now : Nat) (items : List InsertSalesOrderItem)
    (acc : DB) : DB :=
  items.foldl (fun acc item =>
    { acc with
      salesOrderItems := acc.salesOrderItems ++
        [{ id := acc.nextSalesOrderItemId, salesOrderId := orderId,
           productId := item.productId, quantity := item.quantity,
           price := item.price, total := item.total }],
      nextSalesOrderItemId := acc.nextSalesOrderItemId + 1,
      products := updateStockWhere item.productId (-item.quantity) now acc.products })
    acc

/-- `DatabaseStorage.createSalesOrder`; the order number counts the sales
orders dated today and carries the "SO" tag. -/
def createSalesOrder (db : DB) (today : CalDate) (now : Nat)
    (salesOrder : InsertSalesOrder) (items : List InsertSalesOrderItem) :
    SalesOrder × DB :=
  let dateStr := formatYyyyMMdd today
  let count := (db.salesOrders.filter (fun o => decide (o.date = today))).length
  let orderNumber := "SO" ++ dateStr ++ padStart 3 '0' (toString (count + 1))
  let newOrder : SalesOrder :=
    { id := db.nextSalesOrderId, orderNumber := orderNumber,
      customerId := salesOrder.customerId, date := salesOrder.date,
      totalAmount := salesOrder.totalAmount, paymentStatus := salesOrder.paymentStatus,
      dueDate := salesOrder.dueDate, notes := salesOrder.notes,
      createdAt := now, createdBy := salesOrder.createdBy }
  let db0 := { db with salesOrders := db.salesOrders ++ [newOrder],
                       nextSalesOrderId := db.nextSalesOrderId + 1 }
  (newOrder, soInsertLoop newOrder.id now items db0)

/-- The stock-reverting loop of `DatabaseStorage.deleteSalesOrder`:
`stock + item.quantity` for each selected item. -/
def soDeleteLoop (now : Nat) (items : List SalesOrderItem) (acc : DB) : DB :=
  items.foldl (fun acc item =>
    { acc with
      products := updateStockWhere item.productId item.quantity now acc.products })
    acc

/-- `DatabaseStorage.deleteSalesOrder`. -/
def deleteSalesOrder (db : DB) (now : Nat) (id : Nat) : DB :=
  let items := db.salesOrderItems.filter (fun it => decide (it.salesOrderId = id))
  let db1 := soDeleteLoop now items db
  { db1 with
    salesOrderItems :=
      db1.salesOrderItems.filter (fun it => decide (¬ it.salesOrderId = id)),
    salesOrders := db1.salesOrders.filter (fun o => decide (¬ o.id = id)) }

/-- The item loop of `DatabaseStorage.createProductReturn`'s transaction:
insert each return item and bump the product's stock by `+ item.quantity`. -/
def retInsertLoop (returnId : Nat) (now : Nat) (items : List InsertReturnItem)
    (acc : DB) : DB :=
  items.foldl (fun acc item =>
    { acc with
      returnItems := acc.returnItems ++
        [{ id := acc.nextReturnItemId, returnId := returnId,
           productId := item.productId, quantity := item.quantity,
           price := item.price, total := item.total }],
      nextReturnItemId := acc.nextReturnItemId + 1,
      products := updateStockWhere item.productId item.quantity now acc.products })
    acc

/-- `DatabaseStorage.createProductReturn`; the return number counts the
returns dated today and carries the "RET" tag. -/
def createProductReturn (db : DB) (today : CalDate) (now : Nat)
    (productReturn : InsertProductReturn) (items : List InsertReturnItem) :
    ProductReturn × DB :=
  let dateStr := formatYyyyMMdd today
  let count := (db.productReturns.filter (fun r => decide (r.date = today))).length
  let returnNumber := "RET" ++ dateStr ++ padStart 3 '0' (toString (count + 1))
  let newReturn : ProductReturn :=
    { id := db.nextProductReturnId, returnNumber := returnNumber,
      customerId := productReturn.customerId, salesOrderId := productReturn.salesOrderId,
      date := productReturn.date, totalAmount := productReturn.totalAmount,
      status := productReturn.status, notes := productReturn.notes,
      createdAt := now, createdBy := productReturn.createdBy }
  let db0 := { db with productReturns := db.productReturns ++ [newReturn],
                       nextProductReturnId := db.nextProductReturnId + 1 }
  (newReturn, retInsertLoop newReturn.id now items db0)

/-- The stock-reverting loop of `DatabaseStorage.deleteProductReturn`:
`stock - item.quantity` for each selected item. -/
def retDeleteLoop (now : Nat) (items : List ReturnItem) (acc : DB) : DB :=
  items.foldl (fun acc item =>
    { acc with
      products := updateStockWhere item.productId (-item.quantity) now acc.products })
    acc

/-- `DatabaseStorage.deleteProductReturn`. -/
def deleteProductReturn (db : DB) (now : Nat) (id : Nat) : DB :=
  let items := db.returnItems.filter (fun it => decide (it.returnId = id))
  let db1 := retDeleteLoop now items db
  { db1 with
    returnItems := db1.returnItems.filter (fun it => decide (¬ it.returnId = id)),
    productReturns := db1.productReturns.filter (fun r => decide (¬ r.id = id)) }

/-- `DatabaseStorage.updateProductStock`.  The pair keeps the database
alongside the thrown/returned value: throwing happens before any write, so
on error the state is the input state. -/
def updateProductStock (db : DB) (now : Nat) (id : Nat) (quantityChange : Int) :
    Except String Product × DB :=
  match db.products.find? (fun p => decide (p.id = id)) with
  | none => (Except.error "Product not found", db)
  | some product =>
    let newStock := product.stock + quantityChange
    if newStock < 0 then
      (Except.error "Cannot reduce stock below zero", db)
    else
      (Except.ok { product with stock := newStock, lastUpdated := now },
       { db with
         products := db.products.map (fun p =>
           if p.id = id then { p with stock := newStock, lastUpdated := now } else p) })

/-- An authenticated-or-not request as seen by the passport middleware:
`req.isAuthenticated()` plus `req.user.role` (a `user_role` enum string,
meaningful only when authenticated). -/
structure AuthReq where
  isAuthenticated : Bool
  userRole : String
deriving DecidableEq, Repr

/-- A terminal HTTP response `res.status(s).json(message)`. -/
structure ApiResponse where
  status : Nat
  message : String
deriving DecidableEq, Repr

/-- The `checkRole(roles)` middleware of `src/server/routes.ts`: `none` means
the middleware called `next()`. -/
def checkRole (roles : List String) (req : AuthReq) : Option ApiResponse :=
  if !req.isAuthenticated then some { status := 401, message := "Unauthorized" }
  else if !(roles.contains req.userRole) then some { status := 403, message := "Forbidden" }
  else none

/-- A route guarded by `checkRole(roles)`: when the middleware short-circuits,
the handler (and hence its storage operation) never runs and the database is
untouched; otherwise the handler produces the new state and response. -/
def guardedRoute (roles : List String) (handler : AuthReq → DB → DB × ApiResponse)
    (req : AuthReq) (db : DB) : DB × ApiResponse :=
  match checkRole roles req with
  | some resp => (db, resp)
  | none => handler req db

/-- Ascending order on nullable due dates as Postgres `ORDER BY due_date`
sorts them: non-null dates by calendar order, nulls last. -/
def dueDateLe : Option CalDate → Option CalDate → Prop
  | some a, some b => civilDays a ≤ civilDays b
  | some _, none => True
  | none, none => True
  | none, some _ => False

instance : DecidableRel dueDateLe := fun a b =>
  match a, b with
  | some x, some y => inferInstanceAs (Decidable (civilDays x ≤ civilDays y))
  | some _, none => isTrue trivial
  | none, none => isTrue trivial
  | none, some _ => isFalse (fun h => h)

/-- The projected row of the accounts-payable select (before the
`remainingAmount`/`ageDays` post-processing). -/
structure APQueryRow where
  id : Nat
  orderNumber : String
  date : CalDate
  vendorId : Nat
  vendorName : Option String
  totalAmount : Rat
  dueDate : Option CalDate
  status : String
deriving DecidableEq, Repr

/-- A finished accounts-payable report row. -/
structure APRow where
  id : Nat
  orderNumber : String
  date : CalDate
  vendorId : Nat
  vendorName : Option String
  totalAmount : Rat
  dueDate : Option CalDate
  status : String
  remainingAmount : Rat
  ageDays : Int
deriving DecidableEq, Repr

/-- `DatabaseStorage.getAccountsPayable`.  The drizzle builder's `.where()`
stores its argument in `config.where`, so each call REPLACES the previous
filter; the source chains `query = query.where(...)` for the optional
bounds, hence the effective filter is: the `endDate` bound if given, else
the `startDate` bound if given, else the status-in-("pending","partial")
test.  `gte`/`lte` on the `date` column compare calendar days.  Rows are
ordered by `dueDate`, then mapped to add `remainingAmount` (half the total
when status is "partial") and `ageDays`. -/
def getAccountsPayable (db : DB) (today : CalDate)
    (startDate endDate : Option CalDate) : List APRow :=
  let cond : PurchaseOrder → Bool :=
    match startDate, endDate with
    | none, none => fun o => ["pending", "partial"].contains o.status
    | some s, none => fun o => decide (civilDays s ≤ civilDays o.date)
    | _, some e => fun o => decide (civilDays o.date ≤ civilDays e)
  let rows : List APQueryRow := (db.purchaseOrders.filter cond).map (fun o =>
    { id := o.id, orderNumber := o.orderNumber, date := o.date,
      vendorId := o.vendorId,
      vendorName := (db.vendors.find? (fun v => decide (v.id = o.vendorId))).map
        (fun v => v.name),
      totalAmount := o.totalAmount, dueDate := o.dueDate, status := o.status })
  let sorted := List.insertionSort (fun a b => dueDateLe a.dueDate b.dueDate) rows
  sorted.map (fun item =>
    let remainingAmount :=
      if item.status = "partial" then item.totalAmount * 0.5 else item.totalAmount
    let ageDays : Int :=
      match item.dueDate with
      | some d => max 0 (civilDays today - civilDays d)
      | none => 0
    { id := item.id, orderNumber := item.orderNumber, date := item.date,
      vendorId := item.vendorId, vendorName := item.vendorName,
      totalAmount := item.totalAmount, dueDate := item.dueDate,
      status := item.status, remainingAmount := remainingAmount, ageDays := ageDays })

/-- The projected row of the accounts-receivable select. -/
structure ARQueryRow where
  id : Nat
  orderNumber : String
  date : CalDate
  customerId : Nat
  customerName : Option String
  totalAmount : Rat
  dueDate : Option CalDate
  status : String
deriving DecidableEq, Repr

/-- A finished accounts-receivable report row. -/
structure ARRow where
  id : Nat
  orderNumber : String
  date : CalDate
  customerId : Nat
  customerName : Option String
  totalAmount : Rat
  dueDate : Option CalDate
  status : String
  remainingAmount : Rat
  ageDays : Int
deriving DecidableEq, Repr

/-- `DatabaseStorage.getAccountsReceivable`; same builder-overwrite
behaviour as `getAccountsPayable`, over sales orders and their
`paymentStatus` in ("unpaid","partial"). -/
def getAccountsReceivable (db : DB) (today : CalDate)
    (startDate endDate : Option CalDate) : List ARRow :=
  let cond : SalesOrder → Bool :=
    match startDate, endDate with
    | none, none => fun o => ["unpaid", "partial"].contains o.paymentStatus
    | some s, none => fun o => decide (civilDays s ≤ civilDays o.date)
    | _, some e => fun o => decide (civilDays o.date ≤ civilDays e)
  let rows : List ARQueryRow := (db.salesOrders.filter cond).map (fun o =>
    { id := o.id, orderNumber := o.orderNumber, date := o.date,
      customerId := o.customerId,
      customerName := (db.customers.find? (fun c => decide (c.id = o.customerId))).map
        (fun c => c.name),
      totalAmount := o.totalAmount, dueDate := o.dueDate, status := o.paymentStatus })
  let sorted := List.insertionSort (fun a b => dueDateLe a.dueDate b.dueDate) rows
  sorted.map (fun item =>
    let remainingAmount :=
      if item.status = "partial" then item.totalAmount * 0.5 else item.totalAmount
    let ageDays : Int :=
      match item.dueDate with
      | some d => max 0 (civilDays today - civilDays d)
      | none => 0
    { id := item.id, orderNumber := item.orderNumber, date := item.date,
      customerId := item.customerId, customerName := item.customerName,
      totalAmount := item.totalAmount, dueDate := item.dueDate,
      status := item.status, remainingAmount := remainingAmount, ageDays := ageDays })

/-- `leftJoin(categories, eq(products.categoryId, categories.id))` projected
to the category name (categories.id is a primary key, so at most one row
matches). -/
def categoryNameOf (db : DB) (cid : Nat) : Option String :=
  (db.categories.find? (fun c => decide (c.id = cid))).map (fun c => c.name)

/-- Strict ascending order on nullable category names (nulls last). -/
def optStrLt : Option String → Option String → Prop
  | some a, some b => a < b
  | some _, none => True
  | none, _ => False

instance : DecidableRel optStrLt := fun a b =>
  match a, b with
  | some x, some y => inferInstanceAs (Decidable (x < y))
  | some _, none => isTrue trivial
  | none, none => isFalse (fun h => h)
  | none, some _ => isFalse (fun h => h)

/-- The projected row of the inventory-report select. -/
structure InventoryQueryRow where
  id : Nat
  code : String
  name : String
  categoryId : Nat
  categoryName : Option String
  stock : Int
  costPrice : Rat
deriving DecidableEq, Repr

/-- `ORDER BY categories.name, products.name` on inventory rows. -/
def invRowLe (a b : InventoryQueryRow) : Prop :=
  optStrLt a.categoryName b.categoryName ∨
    (a.categoryName = b.categoryName ∧ a.name ≤ b.name)

instance : DecidableRel invRowLe := fun a b => by
  unfold invRowLe; infer_instance

/-- A finished inventory-report row. -/
structure InventoryReportRow where
  id : Nat
  code : String
  name : String
  categoryId : Nat
  categoryName : Option String
  stock : Int
  costPrice : Rat
  totalValue : Rat
deriving DecidableEq, Repr

/-- The select projection of the inventory report: a product joined with
its category name. -/
def invRowOf (db : DB) (p : Product) : InventoryQueryRow :=
  { id := p.id, code := p.code, name := p.name, categoryId := p.categoryId,
    categoryName := categoryNameOf db p.categoryId,
    stock := p.stock, costPrice := p.costPrice }

/-- The post-select map of the inventory report: add
`totalValue = stock * costPrice`. -/
def invReportRowOf (item : InventoryQueryRow) : InventoryReportRow :=
  { id := item.id, code := item.code, name := item.name,
    categoryId := item.categoryId, categoryName := item.categoryName,
    stock := item.stock, costPrice := item.costPrice,
    totalValue := (item.stock : Rat) * item.costPrice }

/-- `DatabaseStorage.getInventoryReport`: join products with their category
name, order by category name then product name, then add
`totalValue = stock * costPrice` to each row. -/
def getInventoryReport (db : DB) : List InventoryReportRow :=
  (List.insertionSort invRowLe (db.products.map (invRowOf db))).map invReportRowOf

/-- Whether a `date` column value falls in the month: the source brackets it
between `new Date(year, month-1, 1)` and `new Date(year, month, 0,
23:59:59.999)`, i.e. the first and last instant of the month, which on
calendar dates is equality of year and month. -/
def inMonth (dt : CalDate) (month year : Nat) : Bool :=
  decide (dt.year = year) && decide (dt.month = month)

/-- The current `costPrice` of the product with the given id (`0` when the
select finds no row, matching the loop that skips missing products). -/
def productCostPrice (db : DB) (pid : Nat) : Rat :=
  match db.products.find? (fun p => decide (p.id = pid)) with
  | some p => p.costPrice
  | none => 0

/-- The sales-order items of the month: the inner join of
`salesOrderItems` with the month's `salesOrders`. -/
def monthSalesItems (db : DB) (month year : Nat) : List SalesOrderItem :=
  db.salesOrderItems.filter (fun item =>
    db.salesOrders.any (fun o => decide (item.salesOrderId = o.id) && inMonth o.date month year))

/-- The result record of `getProfitLossReport`. -/
structure PLReport where
  month : Nat
  year : Nat
  totalSales : Rat
  totalCogs : Rat
  grossProfit : Rat
  totalReturns : Rat
  netProfit : Rat
deriving DecidableEq, Repr

/-- `DatabaseStorage.getProfitLossReport`: `SUM` of the month's sales order
totals (empty sum is the `|| 0` fallback), cost of goods sold accumulated
per joined item from the product's current cost price (items whose product
select finds nothing contribute nothing), `SUM` of the month's return
totals, and the two differences. -/
def getProfitLossReport (db : DB) (month year : Nat) : PLReport :=
  let totalSales :=
    ((db.salesOrders.filter (fun o => inMonth o.date month year)).map
      (fun o => o.totalAmount)).sum
  let salesItems := monthSalesItems db month year
  let totalCogs := salesItems.foldl (fun acc item =>
    match db.products.find? (fun p => decide (p.id = item.productId)) with
    | some product => acc + product.costPrice * (item.quantity : Rat)
    | none => acc) 0
  let grossProfit := totalSales - totalCogs
  let totalReturns :=
    ((db.productReturns.filter (fun r => inMonth r.date month year)).map
      (fun r => r.totalAmount)).sum
  let netProfit := grossProfit - totalReturns
  { month := month, year := year, totalSales := totalSales, totalCogs := totalCogs,
    grossProfit := grossProfit, totalReturns := totalReturns, netProfit := netProfit }

/-- JavaScript `Math.round`: round half toward positive infinity. -/
def jsRound (q : Rat) : Int := Rat.floor (q + 1/2)

/-- The result record of `getDashboardStats`. -/
structure DashboardStats where
  totalMonthlySales : Rat
  totalPayables : Rat
  totalReceivables : Rat
  monthlyProfit : Rat
  totalInventoryItems : Nat
  totalInventoryValue : Rat
  customerCount : Nat
  vendorCount : Nat
  salesChange : Int
deriving DecidableEq, Repr

/-- `DatabaseStorage.getDashboardStats` for the calendar date `today`:
month sales, the `SUM(CASE ...)` payable/receivable aggregates, this
month's profit-loss report, `COUNT(*)`/`SUM(stock * costPrice)` over
products, the customer and vendor counts, and the rounded percentage
change against the previous month's sales (100 when they were 0). -/
def getDashboardStats (db : DB) (today : CalDate) : DashboardStats :=
  let currentMonth := today.month
  let currentYear := today.year
  let totalMonthlySales :=
    ((db.salesOrders.filter (fun o => inMonth o.date currentMonth currentYear)).map
      (fun o => o.totalAmount)).sum
  let totalPayables :=
    ((db.purchaseOrders.filter (fun o => ["pending", "partial"].contains o.status)).map
      (fun o =>
        if o.status = "pending" then o.totalAmount
        else if o.status = "partial" then o.totalAmount * 0.5
        else 0)).sum
  let totalReceivables :=
    ((db.salesOrders.filter (fun o => ["unpaid", "partial"].contains o.paymentStatus)).map
      (fun o =>
        if o.paymentStatus = "unpaid" then o.totalAmount
        else if o.paymentStatus = "partial" then o.totalAmount * 0.5
        else 0)).sum
  let profitLoss := getProfitLossReport db currentMonth currentYear
  let totalInventoryItems := db.products.length
  let totalInventoryValue := (db.products.map (fun p => (p.stock : Rat) * p.costPrice)).sum
  let customerCount := db.customers.length
  let vendorCount := db.vendors.length
  let previousMonth := if currentMonth = 1 then 12 else currentMonth - 1
  let previousMonthYear := if currentMonth = 1 then currentYear - 1 else currentYear
  let prevMonthSales :=
    ((db.salesOrders.filter (fun o => inMonth o.date previousMonth previousMonthYear)).map
      (fun o => o.totalAmount)).sum
  let salesChange : Int :=
    if prevMonthSales = 0 then 100
    else jsRound ((totalMonthlySales - prevMonthSales) / prevMonthSales * 100)
  { totalMonthlySales := totalMonthlySales, totalPayables := totalPayables,
    totalReceivables := totalReceivables, monthlyProfit := profitLoss.netProfit,
    totalInventoryItems := totalInventoryItems,
    totalInventoryValue := totalInventoryValue,
    customerCount := customerCount, vendorCount := vendorCount,
    salesChange := salesChange }

/-- A row of `getLowStockProducts`: a product joined with its category name. -/
structure LowStockRow where
  id : Nat
  code : String
  name : String
  categoryId : Nat
  costPrice : Rat
  sellPrice : Rat
  stock : Int
  lastUpdated : Nat
  createdAt : Nat
  categoryName : Option String
deriving DecidableEq, Repr

/-- A product joined with its category name, the row shape of
`getLowStockProducts`. -/
def lowStockRowOf (db : DB) (p : Product) : LowStockRow :=
  { id := p.id, code := p.code, name := p.name, categoryId := p.categoryId,
    costPrice := p.costPrice, sellPrice := p.sellPrice, stock := p.stock,
    lastUpdated := p.lastUpdated, createdAt := p.createdAt,
    categoryName := categoryNameOf db p.categoryId }

/-- `DatabaseStorage.getLowStockProducts`: the products with
`stock < threshold` (left-joined with their category name), ordered by
ascending stock. -/
def getLowStockProducts (db : DB) (threshold : Int) : List LowStockRow :=
  List.insertionSort (fun a b => a.stock ≤ b.stock)
    ((db.products.filter (fun p => decide (p.stock < threshold))).map
      (lowStockRowOf db))

/-- The `/api/products/low-stock/:threshold` handler's threshold logic:
`parseInt(req.params.threshold) || 5`.  The parse outcome is given as
`none` for NaN (a non-numeric parameter); `0` and NaN are falsy, so both
fall back to 5. -/
def lowStockRoute (db : DB) (parsedThreshold : Option Int) : List LowStockRow :=
  getLowStockProducts db
    (match parsedThreshold with
     | none => 5
     | some t => if t = 0 then 5 else t)

/-- One `page.drawText(text, ...)` call, recorded with the page it targets. -/
structure DrawnText where
  pageIdx : Nat
  x : Rat
  y : Rat
  size : Rat
  font : String
  text : String
deriving DecidableEq, Repr

/-- A pdf-lib document: how many pages were added and every drawn text. -/
structure PdfState where
  numPages : Nat
  texts : List DrawnText
deriving DecidableEq, Repr

/-- A4 page width in points (`595.28`). -/
def a4Width : Rat := 595.28

/-- A4 page height in points (`841.89`). -/
def a4Height : Rat := 841.89

/-- Record a `page.drawText` call on the page with index `pageIdx`. -/
def drawText (st : PdfState) (pageIdx : Nat) (x y size : Rat)
    (font text : String) : PdfState :=
  { st with
    texts := st.texts ++
      [{ pageIdx := pageIdx, x := x, y := y, size := size, font := font, text := text }] }

/-- An item of the invoice/receipt data passed to `generatePDF`. -/
structure PdfItem where
  productName : String
  quantity : Int
  price : Rat
  total : Rat
deriving DecidableEq, Repr

/-- The `data` argument of `generatePDF` (invoice/receipt fields plus the
report `rows`). -/
structure PdfData where
  title : String
  entityType : String
  entityName : String
  documentNumber : String
  date : String
  items : List PdfItem
  totalAmount : Rat
  rows : List String
deriving DecidableEq, Repr

/-- The item loop of `generatePDF`.  The source's `page` constant is bound
to the FIRST page for the whole function, so every `page.drawText` call
targets page index 0; when `y` drops below 100 after a line,
`pdfDoc.addPage` appends a fresh A4 page (only the page count grows) and
`y` is reset to that page's height minus 50 — but drawing continues on
page 0. -/
def pdfItemLoop (items : List PdfItem) (acc : PdfState × Rat) : PdfState × Rat :=
  items.foldl (fun acc item =>
    let st := drawText acc.1 0 50 acc.2 12 "Helvetica" item.productName
    let st := drawText st 0 250 acc.2 12 "Helvetica" (toString item.quantity)
    let st := drawText st 0 350 acc.2 12 "Helvetica" (toString item.price)
    let st := drawText st 0 450 acc.2 12 "Helvetica" (toString item.total)
    let y := acc.2 - 20
    if y < 100 then ({ st with numPages := st.numPages + 1 }, a4Height - 50)
    else (st, y)) acc

/-- The report-rows loop of `generatePDF`; same layout and page-break
behaviour (and the same first-page drawing target) as the item loop. -/
def pdfRowLoop (rows : List String) (acc : PdfState × Rat) : PdfState × Rat :=
  rows.foldl (fun acc row =>
    let st := drawText acc.1 0 50 acc.2 12 "Helvetica" row
    let y := acc.2 - 20
    if y < 100 then ({ st with numPages := st.numPages + 1 }, a4Height - 50)
    else (st, y)) acc

/-- The `generatePDF` helper of `src/server/routes.ts`.  `pdfType` is the
"invoice" | "receipt" | "report" tag; `todayStr` is the formatted current
date the source interpolates into the header. -/
def generatePDF (pdfType : String) (todayStr : String) (data : PdfData) : PdfState :=
  let st : PdfState := { numPages := 1, texts := [] }
  let height := a4Height
  let width := a4Width
  let st := drawText st 0 50 (height - 50) 20 "HelveticaBold" data.title
  let st := drawText st 0 50 (height - 80) 12 "Helvetica"
    "SimpleStore - Inventory Management System"
  let st := drawText st 0 50 (height - 100) 12 "Helvetica" ("Date: " ++ todayStr)
  let y := height - 130
  if pdfType = "invoice" ∨ pdfType = "receipt" then
    let st := drawText st 0 50 y 12 "Helvetica" (data.entityType ++ ": " ++ data.entityName)
    let y := y - 20
    let st := drawText st 0 50 y 12 "Helvetica" ("Document Number: " ++ data.documentNumber)
    let y := y - 20
    let st := drawText st 0 50 y 12 "Helvetica" ("Date: " ++ data.date)
    let y := y - 40
    let st := drawText st 0 50 y 12 "HelveticaBold" "Product"
    let st := drawText st 0 250 y 12 "HelveticaBold" "Quantity"
    let st := drawText st 0 350 y 12 "HelveticaBold" "Price"
    let st := drawText st 0 450 y 12 "HelveticaBold" "Total"
    let y := y - 20
    let res := pdfItemLoop data.items (st, y)
    let y := res.2 - 20
    let st := drawText res.1 0 350 y 12 "HelveticaBold" "Total Amount:"
    let st := drawText st 0 450 y 12 "HelveticaBold" (toString data.totalAmount)
    drawText st 0 (width / 2 - 100) 50 12 "Helvetica" "Thank you for your business!"
  else if pdfType = "report" then
    let res := pdfRowLoop data.rows (st, y)
    drawText res.1 0 (width / 2 - 100) 50 12 "Helvetica" "Thank you for your business!"
  else
    drawText st 0 (width / 2 - 100) 50 12 "Helvetica" "Thank you for your business!"

/-- The net stock change a list of `(productId, signed quantity)` updates
applies to the product with id `pid`. -/
def stockDelta (pid : Nat) (ds : List (Nat × Int)) : Int :=
  ((ds.filter (fun d => decide (d.1 = pid))).map (fun d => d.2)).sum

/-- A whole list of stock updates applied to one product row. -/
def applyDeltasP (now : Nat) (ds : List (Nat × Int)) (p : Product) : Product :=
  ds.foldl (fun q d => applyDelta now d q) p

/-- A whole list of stock updates applied to the products table. -/
def applyDeltasL (now : Nat) (ds : List (Nat × Int)) (ps : List Product) : List Product :=
  ds.foldl (fun ps d => updateStockWhere d.1 d.2 now ps) ps

theorem stockDelta_cons (pid : Nat) (d : Nat × Int) (ds : List (Nat × Int)) :
    stockDelta pid (d :: ds) = (if d.1 = pid then d.2 else 0) + stockDelta pid ds := by
  by_cases h : d.1 = pid <;> simp [stockDelta, List.filter_cons, h]

theorem stockDelta_eq_zero (pid : Nat) (ds : List (Nat × Int))
    (h : ∀ d ∈ ds, d.1 ≠ pid) : stockDelta pid ds = 0 := by
  induction ds with
  | nil => rfl
  | cons d ds ih =>
    rw [stockDelta_cons, if_neg (h d (List.mem_cons_self d ds)),
      ih (fun x hx => h x (List.mem_cons_of_mem d hx)), add_zero]

theorem stockDelta_neg (pid : Nat) (ds : List (Nat × Int)) :
    stockDelta pid (ds.map (fun d => (d.1, -d.2))) = -stockDelta pid ds := by
  induction ds with
  | nil => rfl
  | cons d ds ih =>
    rw [List.map_cons, stockDelta_cons, stockDelta_cons, ih]
    by_cases h : d.1 = pid
    · simp [h]; ring
    · simp [h]

theorem stockDelta_of_pairwise {ι : Type} (f : ι → Nat) (g : ι → Int)
    (items : List ι) (h : items.Pairwise (fun a b => f a ≠ f b))
    (it : ι) (hm : it ∈ items) :
    stockDelta (f it) (items.map (fun j => (f j, g j))) = g it := by
  induction items with
  | nil => cases hm
  | cons a l ih =>
    have hp := List.pairwise_cons.mp h
    rw [List.map_cons, stockDelta_cons]
    rcases List.mem_cons.mp hm with rfl | hm'
    · rw [if_pos rfl, stockDelta_eq_zero, add_zero]
      intro d hd
      obtain ⟨j, hj, rfl⟩ := List.mem_map.mp hd
      exact fun hc => hp.1 j hj hc.symm
    · rw [if_neg (fun hc => hp.1 it hm' hc), zero_add]
      exact ih hp.2 hm'

theorem applyDeltasP_eq (now : Nat) (ds : List (Nat × Int)) (p : Product) :
    applyDeltasP now ds p =
      if ds.any (fun d => decide (d.1 = p.id)) then
        { p with stock := p.stock + stockDelta p.id ds, lastUpdated := now }
      else p := by
  induction ds generalizing p with
  | nil => simp [applyDeltasP, stockDelta]
  | cons d ds ih =>
    have hstep : applyDeltasP now (d :: ds) p = applyDeltasP now ds (applyDelta now d p) := rfl
    rw [hstep, ih]
    by_cases hd : p.id = d.1
    · have h1 : applyDelta now d p = { p with stock := p.stock + d.2, lastUpdated := now } := by
        simp [applyDelta, hd]
      rw [h1]
      have hany : (d :: ds).any (fun x => decide (x.1 = p.id)) = true := by
        simp [List.any_cons, hd.symm]
      rw [hany]
      by_cases hds : ds.any (fun x => decide (x.1 = p.id)) = true
      · simp only [hds, if_true]
        simp [stockDelta_cons, hd.symm, add_assoc]
      · simp only [Bool.not_eq_true] at hds
        simp only [hds, Bool.false_eq_true, if_false]
        have hz : stockDelta p.id ds = 0 := by
          apply stockDelta_eq_zero
          intro x hx hc
          have hcontra : ds.any (fun x => decide (x.1 = p.id)) = true :=
            List.any_eq_true.mpr ⟨x, hx, by simp [hc]⟩
          rw [hcontra] at hds; cases hds
        simp [stockDelta_cons, hd.symm, hz]
    · have h1 : applyDelta now d p = p := by simp [applyDelta, hd]
      rw [h1]
      have hany : (d :: ds).any (fun x => decide (x.1 = p.id)) =
          ds.any (fun x => decide (x.1 = p.id)) := by
        rw [List.any_cons, decide_eq_false (fun hc => hd hc.symm), Bool.false_or]
      have hdelta : stockDelta p.id (d :: ds) = stockDelta p.id ds := by
        rw [stockDelta_cons, if_neg (fun hc => hd hc.symm), zero_add]
      rw [hany, hdelta]

theorem applyDeltasL_eq_map (now : Nat) (ds : List (Nat × Int)) (ps : List Product) :
    applyDeltasL now ds ps = ps.map (applyDeltasP now ds) := by
  induction ds generalizing ps with
  | nil =>
    have hid : applyDeltasP now [] = fun p : Product => p := rfl
    rw [applyDeltasL, List.foldl_nil, hid, List.map_id']
  | cons d ds ih =>
    have hstep : applyDeltasL now (d :: ds) ps =
        applyDeltasL now ds (updateStockWhere d.1 d.2 now ps) := rfl
    rw [hstep, ih, updateStockWhere, List.map_map]
    rfl

/-- The purchase-order item rows inserted by the create loop, with
their generated serial ids. -/
def insertedPOItems (startId orderId : Nat) :
    List InsertPurchaseOrderItem → List PurchaseOrderItem
  | [] => []
  | item :: rest =>
    { id := startId, purchaseOrderId := orderId, productId := item.productId,
      quantity := item.quantity, price := item.price, total := item.total } ::
      insertedPOItems (startId + 1) orderId rest

/-- The sales-order item rows inserted by the create loop. -/
def insertedSOItems (startId orderId : Nat) :
    List InsertSalesOrderItem → List SalesOrderItem
  | [] => []
  | item :: rest =>
    { id := startId, salesOrderId := orderId, productId := item.productId,
      quantity := item.quantity, price := item.price, total := item.total } ::
      insertedSOItems (startId + 1) orderId rest

/-- The return item rows inserted by the create loop. -/
def insertedRetItems (startId returnId : Nat) :
    List InsertReturnItem → List ReturnItem
  | [] => []
  | item :: rest =>
    { id := startId, returnId := returnId, productId := item.productId,
      quantity := item.quantity, price := item.price, total := item.total } ::
      insertedRetItems (startId + 1) returnId rest

theorem poInsertLoop_spec (orderId now : Nat) (items : List InsertPurchaseOrderItem)
    (acc : DB) :
    poInsertLoop orderId now items acc =
      { acc with
        purchaseOrderItems := acc.purchaseOrderItems ++
          insertedPOItems acc.nextPurchaseOrderItemId orderId items,
        nextPurchaseOrderItemId := acc.nextPurchaseOrderItemId + items.length,
        products :=
          applyDeltasL now (items.map (fun it => (it.productId, it.quantity)))
            acc.products } := by
  induction items generalizing acc with
  | nil => simp [poInsertLoop, insertedPOItems, applyDeltasL]
  | cons item rest ih =>
    have hstep : poInsertLoop orderId now (item :: rest) acc =
        poInsertLoop orderId now rest
          { acc with
            purchaseOrderItems := acc.purchaseOrderItems ++
              [{ id := acc.nextPurchaseOrderItemId, purchaseOrderId := orderId,
                 productId := item.productId, quantity := item.quantity,
                 price := item.price, total := item.total }],
            nextPurchaseOrderItemId := acc.nextPurchaseOrderItemId + 1,
            products := updateStockWhere item.productId item.quantity now acc.products } := rfl
    rw [hstep, ih]
    simp [insertedPOItems, applyDeltasL]
    omega

theorem soInsertLoop_spec (orderId now : Nat) (items : List InsertSalesOrderItem)
    (acc : DB) :
    soInsertLoop orderId now items acc =
      { acc with
        salesOrderItems := acc.salesOrderItems ++
          insertedSOItems acc.nextSalesOrderItemId orderId items,
        nextSalesOrderItemId := acc.nextSalesOrderItemId + items.length,
        products :=
          applyDeltasL now (items.map (fun it => (it.productId, -it.quantity)))
            acc.products } := by
  induction items generalizing acc with
  | nil => simp [soInsertLoop, insertedSOItems, applyDeltasL]
  | cons item rest ih =>
    have hstep : soInsertLoop orderId now (item :: rest) acc =
        soInsertLoop orderId now rest
          { acc with
            salesOrderItems := acc.salesOrderItems ++
              [{ id := acc.nextSalesOrderItemId, salesOrderId := orderId,
                 productId := item.productId, quantity := item.quantity,
                 price := item.price, total := item.total }],
            nextSalesOrderItemId := acc.nextSalesOrderItemId + 1,
            products := updateStockWhere item.productId (-item.quantity) now acc.products } := rfl
    rw [hstep, ih]
    simp [insertedSOItems, applyDeltasL]
    omega

theorem retInsertLoop_spec (returnId now : Nat) (items : List InsertReturnItem)
    (acc : DB) :
    retInsertLoop returnId now items acc =
      { acc with
        returnItems := acc.returnItems ++
          insertedRetItems acc.nextReturnItemId returnId items,
        nextReturnItemId := acc.nextReturnItemId + items.length,
        products :=
          applyDeltasL now (items.map (fun it => (it.productId, it.quantity)))
            acc.products } := by
  induction items generalizing acc with
  | nil => simp [retInsertLoop, insertedRetItems, applyDeltasL]
  | cons item rest ih =>
    have hstep : retInsertLoop returnId now (item :: rest) acc =
        retInsertLoop returnId now rest
          { acc with
            returnItems := acc.returnItems ++
              [{ id := acc.nextReturnItemId, returnId := returnId,
                 productId := item.productId, quantity := item.quantity,
                 price := item.price, total := item.total }],
            nextReturnItemId := acc.nextReturnItemId + 1,
            products := updateStockWhere item.productId item.quantity now acc.products } := rfl
    rw [hstep, ih]
    simp [insertedRetItems, applyDeltasL]
    omega

theorem poDeleteLoop_spec (now : Nat) (items : List PurchaseOrderItem) (acc : DB) :
    poDeleteLoop now items acc =
      { acc with
        products :=
          applyDeltasL now (items.map (fun it => (it.productId, -it.quantity)))
            acc.products } := by
  induction items generalizing acc with
  | nil => simp [poDeleteLoop, applyDeltasL]
  | cons item rest ih =>
    have hstep : poDeleteLoop now (item :: rest) acc =
        poDeleteLoop now rest
          { acc with
            products := updateStockWhere item.productId (-item.quantity) now acc.products } := rfl
    rw [hstep, ih]
    rfl

theorem soDeleteLoop_spec (now : Nat) (items : List SalesOrderItem) (acc : DB) :
    soDeleteLoop now items acc =
      { acc with
        products :=
          applyDeltasL now (items.map (fun it => (it.productId, it.quantity)))
            acc.products } := by
  induction items generalizing acc with
  | nil => simp [soDeleteLoop, applyDeltasL]
  | cons item rest ih =>
    have hstep : soDeleteLoop now (item :: rest) acc =
        soDeleteLoop now rest
          { acc with
            products := updateStockWhere item.productId item.quantity now acc.products } := rfl
    rw [hstep, ih]
    rfl

theorem retDeleteLoop_spec (now : Nat) (items : List ReturnItem) (acc : DB) :
    retDeleteLoop now items acc =
      { acc with
        products :=
          applyDeltasL now (items.map (fun it => (it.productId, -it.quantity)))
            acc.products } := by
  induction items generalizing acc with
  | nil => simp [retDeleteLoop, applyDeltasL]
  | cons item rest ih =>
    have hstep : retDeleteLoop now (item :: rest) acc =
        retDeleteLoop now rest
          { acc with
            products := updateStockWhere item.productId (-item.quantity) now acc.products } := rfl
    rw [hstep, ih]
    rfl

theorem filter_none {α : Type} (p : α → Bool) (l : List α)
    (h : ∀ a ∈ l, p a = false) : l.filter p = [] := by
  induction l with
  | nil => rfl
  | cons a l ih =>
    rw [List.filter_cons, h a (List.mem_cons_self a l)]
    exact ih fun x hx => h x (List.mem_cons_of_mem a hx)

theorem filter_all {α : Type} (p : α → Bool) (l : List α)
    (h : ∀ a ∈ l, p a = true) : l.filter p = l := by
  induction l with
  | nil => rfl
  | cons a l ih =>
    rw [List.filter_cons, h a (List.mem_cons_self a l)]
    simp only [if_true]
    rw [ih fun x hx => h x (List.mem_cons_of_mem a hx)]

theorem insertedPOItems_mem (startId oid : Nat) (items : List InsertPurchaseOrderItem) :
    ∀ it ∈ insertedPOItems startId oid items, it.purchaseOrderId = oid := by
  induction items generalizing startId with
  | nil => intro it hit; cases hit
  | cons a l ih =>
    intro it hit
    rcases List.mem_cons.mp hit with rfl | h
    · rfl
    · exact ih (startId + 1) it h

theorem insertedSOItems_mem (startId oid : Nat) (items : List InsertSalesOrderItem) :
    ∀ it ∈ insertedSOItems startId oid items, it.salesOrderId = oid := by
  induction items generalizing startId with
  | nil => intro it hit; cases hit
  | cons a l ih =>
    intro it hit
    rcases List.mem_cons.mp hit with rfl | h
    · rfl
    · exact ih (startId + 1) it h

theorem insertedRetItems_mem (startId rid : Nat) (items : List InsertReturnItem) :
    ∀ it ∈ insertedRetItems startId rid items, it.returnId = rid := by
  induction items generalizing startId with
  | nil => intro it hit; cases hit
  | cons a l ih =>
    intro it hit
    rcases List.mem_cons.mp hit with rfl | h
    · rfl
    · exact ih (startId + 1) it h

theorem insertedPOItems_deltas_neg (startId oid : Nat)
    (items : List InsertPurchaseOrderItem) :
    (insertedPOItems startId oid items).map (fun it => (it.productId, -it.quantity)) =
      (items.map (fun it => (it.productId, it.quantity))).map (fun d => (d.1, -d.2)) := by
  induction items generalizing startId with
  | nil => rfl
  | cons a l ih => simp [insertedPOItems, ih]

theorem insertedSOItems_deltas_neg (startId oid : Nat)
    (items : List InsertSalesOrderItem) :
    (insertedSOItems startId oid items).map (fun it => (it.productId, it.quantity)) =
      (items.map (fun it => (it.productId, -it.quantity))).map (fun d => (d.1, -d.2)) := by
  induction items generalizing startId with
  | nil => rfl
  | cons a l ih => simp [insertedSOItems, ih]

theorem insertedRetItems_deltas_neg (startId rid : Nat)
    (items : List InsertReturnItem) :
    (insertedRetItems startId rid items).map (fun it => (it.productId, -it.quantity)) =
      (items.map (fun it => (it.productId, it.quantity))).map (fun d => (d.1, -d.2)) := by
  induction items generalizing startId with
  | nil => rfl
  | cons a l ih => simp [insertedRetItems, ih]

theorem applyDeltasP_roundtrip (now now2 : Nat) (ds : List (Nat × Int)) (p : Product) :
    ((applyDeltasP now2 (ds.map (fun d => (d.1, -d.2))) (applyDeltasP now ds p)).id,
      (applyDeltasP now2 (ds.map (fun d => (d.1, -d.2))) (applyDeltasP now ds p)).stock) =
      (p.id, p.stock) := by
  obtain ⟨pid, pcode, pname, pcat, pcost, psell, pstock, plu, pca⟩ := p
  by_cases hany : ds.any (fun d => decide (d.1 = pid)) = true
  · have hmap : (ds.map (fun d => (d.1, -d.2))).any (fun d => decide (d.1 = pid)) = true := by
      rw [List.any_map]; exact hany
    simp [applyDeltasP_eq, hany, hmap, stockDelta_neg]
  · have hany' : ds.any (fun d => decide (d.1 = pid)) = false :=
      (Bool.not_eq_true _).mp hany
    have hmap : (ds.map (fun d => (d.1, -d.2))).any (fun d => decide (d.1 = pid)) = false := by
      rw [List.any_map]; exact hany'
    simp [applyDeltasP_eq, hany', hmap]

theorem createPurchaseOrder_db_spec (db : DB) (today : CalDate) (now : Nat)
    (po : InsertPurchaseOrder) (items : List InsertPurchaseOrderItem) :
    (createPurchaseOrder db today now po items).2 =
      { db with
        purchaseOrders := db.purchaseOrders ++ [(createPurchaseOrder db today now po items).1],
        nextPurchaseOrderId := db.nextPurchaseOrderId + 1,
        purchaseOrderItems := db.purchaseOrderItems ++
          insertedPOItems db.nextPurchaseOrderItemId db.nextPurchaseOrderId items,
        nextPurchaseOrderItemId := db.nextPurchaseOrderItemId + items.length,
        products :=
          applyDeltasL now (items.map (fun it => (it.productId, it.quantity)))
            db.products } := by
  show poInsertLoop db.nextPurchaseOrderId now items _ = _
  rw [poInsertLoop_spec]
  rfl

theorem createSalesOrder_db_spec (db : DB) (today : CalDate) (now : Nat)
    (so : InsertSalesOrder) (items : List InsertSalesOrderItem) :
    (createSalesOrder db today now so items).2 =
      { db with
        salesOrders := db.salesOrders ++ [(createSalesOrder db today now so items).1],
        nextSalesOrderId := db.nextSalesOrderId + 1,
        salesOrderItems := db.salesOrderItems ++
          insertedSOItems db.nextSalesOrderItemId db.nextSalesOrderId items,
        nextSalesOrderItemId := db.nextSalesOrderItemId + items.length,
        products :=
          applyDeltasL now (items.map (fun it => (it.productId, -it.quantity)))
            db.products } := by
  show soInsertLoop db.nextSalesOrderId now items _ = _
  rw [soInsertLoop_spec]
  rfl

theorem createProductReturn_db_spec (db : DB) (today : CalDate) (now : Nat)
    (pr : InsertProductReturn) (items : List InsertReturnItem) :
    (createProductReturn db today now pr items).2 =
      { db with
        productReturns := db.productReturns ++ [(createProductReturn db today now pr items).1],
        nextProductReturnId := db.nextProductReturnId + 1,
        returnItems := db.returnItems ++
          insertedRetItems db.nextReturnItemId db.nextProductReturnId items,
        nextReturnItemId := db.nextReturnItemId + items.length,
        products :=
          applyDeltasL now (items.map (fun it => (it.productId, it.quantity)))
            db.products } := by
  show retInsertLoop db.nextProductReturnId now items _ = _
  rw [retInsertLoop_spec]
  rfl

theorem deletePurchaseOrder_spec (db : DB) (now : Nat) (id : Nat) :
    deletePurchaseOrder db now id =
      { db with
        products := applyDeltasL now
          ((db.purchaseOrderItems.filter (fun it => decide (it.purchaseOrderId = id))).map
            (fun it => (it.productId, -it.quantity))) db.products,
        purchaseOrderItems :=
          db.purchaseOrderItems.filter (fun it => decide (¬ it.purchaseOrderId = id)),
        purchaseOrders := db.purchaseOrders.filter (fun o => decide (¬ o.id = id)) } := by
  unfold deletePurchaseOrder
  simp only [poDeleteLoop_spec]

theorem deleteSalesOrder_spec (db : DB) (now : Nat) (id : Nat) :
    deleteSalesOrder db now id =
      { db with
        products := applyDeltasL now
          ((db.salesOrderItems.filter (fun it => decide (it.salesOrderId = id))).map
            (fun it => (it.productId, it.quantity))) db.products,
        salesOrderItems :=
          db.salesOrderItems.filter (fun it => decide (¬ it.salesOrderId = id)),
        salesOrders := db.salesOrders.filter (fun o => decide (¬ o.id = id)) } := by
  unfold deleteSalesOrder
  simp only [soDeleteLoop_spec]

theorem deleteProductReturn_spec (db : DB) (now : Nat) (id : Nat) :
    deleteProductReturn db now id =
      { db with
        products := applyDeltasL now
          ((db.returnItems.filter (fun it => decide (it.returnId = id))).map
            (fun it => (it.productId, -it.quantity))) db.products,
        returnItems :=
          db.returnItems.filter (fun it => decide (¬ it.returnId = id)),
        productReturns := db.productReturns.filter (fun r => decide (¬ r.id = id)) } := by
  unfold deleteProductReturn
  simp only [retDeleteLoop_spec]

theorem po_roundtrip (db : DB) (today : CalDate) (now now2 : Nat)
    (po : InsertPurchaseOrder) (items : List InsertPurchaseOrderItem)
    (h1 : ∀ o ∈ db.purchaseOrders, o.id ≠ db.nextPurchaseOrderId)
    (h2 : ∀ it ∈ db.purchaseOrderItems, it.purchaseOrderId ≠ db.nextPurchaseOrderId) :
    (deletePurchaseOrder (createPurchaseOrder db today now po items).2 now2
        (createPurchaseOrder db today now po items).1.id).purchaseOrders =
      db.purchaseOrders ∧
    (deletePurchaseOrder (createPurchaseOrder db today now po items).2 now2
        (createPurchaseOrder db today now po items).1.id).purchaseOrderItems =
      db.purchaseOrderItems ∧
    (deletePurchaseOrder (createPurchaseOrder db today now po items).2 now2
        (createPurchaseOrder db today now po items).1.id).products.map
        (fun p => (p.id, p.stock)) =
      db.products.map (fun p => (p.id, p.stock)) := by
  have hid : (createPurchaseOrder db today now po items).1.id = db.nextPurchaseOrderId := rfl
  rw [hid, createPurchaseOrder_db_spec, deletePurchaseOrder_spec]
  dsimp only
  have hsel : (db.purchaseOrderItems ++
      insertedPOItems db.nextPurchaseOrderItemId db.nextPurchaseOrderId items).filter
        (fun it => decide (it.purchaseOrderId = db.nextPurchaseOrderId)) =
      insertedPOItems db.nextPurchaseOrderItemId db.nextPurchaseOrderId items := by
    rw [List.filter_append,
        filter_none _ _ (fun it hit => decide_eq_false (h2 it hit)),
        filter_all _ _ (fun it hit =>
          decide_eq_true (insertedPOItems_mem _ _ items it hit)),
        List.nil_append]
  refine ⟨?_, ?_, ?_⟩
  · rw [List.filter_append,
        filter_all _ _ (fun o ho => decide_eq_true (h1 o ho)),
        filter_none _ _ ?_, List.append_nil]
    intro o ho
    rw [List.mem_singleton.mp ho]
    exact decide_eq_false (fun hc => hc rfl)
  · rw [List.filter_append,
        filter_all _ _ (fun it hit => decide_eq_true (h2 it hit)),
        filter_none _ _ ?_, List.append_nil]
    intro it hit
    exact decide_eq_false (fun hc => hc (insertedPOItems_mem _ _ items it hit))
  · rw [hsel, insertedPOItems_deltas_neg,
        applyDeltasL_eq_map, applyDeltasL_eq_map, List.map_map, List.map_map]
    exact List.map_congr_left (fun p hp => applyDeltasP_roundtrip now now2 _ p)

theorem so_roundtrip (db : DB) (today : CalDate) (now now2 : Nat)
    (so : InsertSalesOrder) (items : List InsertSalesOrderItem)
    (h1 : ∀ o ∈ db.salesOrders, o.id ≠ db.nextSalesOrderId)
    (h2 : ∀ it ∈ db.salesOrderItems, it.salesOrderId ≠ db.nextSalesOrderId) :
    (deleteSalesOrder (createSalesOrder db today now so items).2 now2
        (createSalesOrder db today now so items).1.id).salesOrders =
      db.salesOrders ∧
    (deleteSalesOrder (createSalesOrder db today now so items).2 now2
        (createSalesOrder db today now so items).1.id).salesOrderItems =
      db.salesOrderItems ∧
    (deleteSalesOrder (createSalesOrder db today now so items).2 now2
        (createSalesOrder db today now so items).1.id).products.map
        (fun p => (p.id, p.stock)) =
      db.products.map (fun p => (p.id, p.stock)) := by
  have hid : (createSalesOrder db today now so items).1.id = db.nextSalesOrderId := rfl
  rw [hid, createSalesOrder_db_spec, deleteSalesOrder_spec]
  dsimp only
  have hsel : (db.salesOrderItems ++
      insertedSOItems db.nextSalesOrderItemId db.nextSalesOrderId items).filter
        (fun it => decide (it.salesOrderId = db.nextSalesOrderId)) =
      insertedSOItems db.nextSalesOrderItemId db.nextSalesOrderId items := by
    rw [List.filter_append,
        filter_none _ _ (fun it hit => decide_eq_false (h2 it hit)),
        filter_all _ _ (fun it hit =>
          decide_eq_true (insertedSOItems_mem _ _ items it hit)),
        List.nil_append]
  refine ⟨?_, ?_, ?_⟩
  · rw [List.filter_append,
        filter_all _ _ (fun o ho => decide_eq_true (h1 o ho)),
        filter_none _ _ ?_, List.append_nil]
    intro o ho
    rw [List.mem_singleton.mp ho]
    exact decide_eq_false (fun hc => hc rfl)
  · rw [List.filter_append,
        filter_all _ _ (fun it hit => decide_eq_true (h2 it hit)),
        filter_none _ _ ?_, List.append_nil]
    intro it hit
    exact decide_eq_false (fun hc => hc (insertedSOItems_mem _ _ items it hit))
  · rw [hsel, insertedSOItems_deltas_neg,
        applyDeltasL_eq_map, applyDeltasL_eq_map, List.map_map, List.map_map]
    exact List.map_congr_left (fun p hp => applyDeltasP_roundtrip now now2 _ p)

theorem ret_roundtrip (db : DB) (today : CalDate) (now now2 : Nat)
    (pr : InsertProductReturn) (items : List InsertReturnItem)
    (h1 : ∀ r ∈ db.productReturns, r.id ≠ db.nextProductReturnId)
    (h2 : ∀ it ∈ db.returnItems, it.returnId ≠ db.nextProductReturnId) :
    (deleteProductReturn (createProductReturn db today now pr items).2 now2
        (createProductReturn db today now pr items).1.id).productReturns =
      db.productReturns ∧
    (deleteProductReturn (createProductReturn db today now pr items).2 now2
        (createProductReturn db today now pr items).1.id).returnItems =
      db.returnItems ∧
    (deleteProductReturn (createProductReturn db today now pr items).2 now2
        (createProductReturn db today now pr items).1.id).products.map
        (fun p => (p.id, p.stock)) =
      db.products.map (fun p => (p.id, p.stock)) := by
  have hid : (createProductReturn db today now pr items).1.id = db.nextProductReturnId := rfl
  rw [hid, createProductReturn_db_spec, deleteProductReturn_spec]
  dsimp only
  have hsel : (db.returnItems ++
      insertedRetItems db.nextReturnItemId db.nextProductReturnId items).filter
        (fun it => decide (it.returnId = db.nextProductReturnId)) =
      insertedRetItems db.nextReturnItemId db.nextProductReturnId items := by
    rw [List.filter_append,
        filter_none _ _ (fun it hit => decide_eq_false (h2 it hit)),
        filter_all _ _ (fun it hit =>
          decide_eq_true (insertedRetItems_mem _ _ items it hit)),
        List.nil_append]
  refine ⟨?_, ?_, ?_⟩
  · rw [List.filter_append,
        filter_all _ _ (fun r hr => decide_eq_true (h1 r hr)),
        filter_none _ _ ?_, List.append_nil]
    intro r hr
    rw [List.mem_singleton.mp hr]
    exact decide_eq_false (fun hc => hc rfl)
  · rw [List.filter_append,
        filter_all _ _ (fun it hit => decide_eq_true (h2 it hit)),
        filter_none _ _ ?_, List.append_nil]
    intro it hit
    exact decide_eq_false (fun hc => hc (insertedRetItems_mem _ _ items it hit))
  · rw [hsel, insertedRetItems_deltas_neg,
        applyDeltasL_eq_map, applyDeltasL_eq_map, List.map_map, List.map_map]
    exact List.map_congr_left (fun p hp => applyDeltasP_roundtrip now now2 _ p)

theorem poItems_any_map (l : List InsertPurchaseOrderItem) (pid : Nat) :
    ((l.map (fun it => (it.productId, it.quantity))).any (fun d => decide (d.1 = pid))) =
      l.any (fun it => decide (it.productId = pid)) := by
  induction l with
  | nil => rfl
  | cons a l ih => simp [ih]

theorem soItems_any_map (l : List InsertSalesOrderItem) (pid : Nat) :
    ((l.map (fun it => (it.productId, -it.quantity))).any (fun d => decide (d.1 = pid))) =
      l.any (fun it => decide (it.productId = pid)) := by
  induction l with
  | nil => rfl
  | cons a l ih => simp [ih]

/-- C1: `createPurchaseOrder` numbers the new order "PO" ++ the creation
date as yyyyMMdd ++ (n+1) left-padded with zeros to 3 digits, where n is
the number of existing purchase orders dated that day; `createSalesOrder`
does the same with the "SO" tag over the sales-order table, and
`createProductReturn` with the "RET" tag over the product-return table. -/
theorem orderNumber_spec (db : DB) (today : CalDate) (now : Nat)
    (po : InsertPurchaseOrder) (poItems : List InsertPurchaseOrderItem)
    (so : InsertSalesOrder) (soItems : List InsertSalesOrderItem)
    (pr : InsertProductReturn) (prItems : List InsertReturnItem) :
    (createPurchaseOrder db today now po poItems).1.orderNumber =
      "PO" ++ formatYyyyMMdd today ++
        padStart 3 '0' (toString
          ((db.purchaseOrders.filter (fun o => decide (o.date = today))).length + 1)) ∧
    (createSalesOrder db today now so soItems).1.orderNumber =
      "SO" ++ formatYyyyMMdd today ++
        padStart 3 '0' (toString
          ((db.salesOrders.filter (fun o => decide (o.date = today))).length + 1)) ∧
    (createProductReturn db today now pr prItems).1.returnNumber =
      "RET" ++ formatYyyyMMdd today ++
        padStart 3 '0' (toString
          ((db.productReturns.filter (fun r => decide (r.date = today))).length + 1)) :=
  ⟨rfl, rfl, rfl⟩

/-- C2: inside the create transactions, every product referenced by an item
gains (purchase) or loses (sales) exactly that item's quantity of stock
(`stockDelta` collapses to the single item's quantity when product ids are
pairwise distinct across the item list), unreferenced products are left
entirely unchanged, and referenced products change only in `stock` and
`lastUpdated`. -/
theorem create_stock_adjustment_spec (db : DB) (today : CalDate) (now : Nat)
    (po : InsertPurchaseOrder) (poItems : List InsertPurchaseOrderItem)
    (so : InsertSalesOrder) (soItems : List InsertSalesOrderItem)
    (hpo : poItems.Pairwise (fun a b => a.productId ≠ b.productId))
    (hso : soItems.Pairwise (fun a b => a.productId ≠ b.productId)) :
    ((createPurchaseOrder db today now po poItems).2.products =
        db.products.map (fun p =>
          if poItems.any (fun it => decide (it.productId = p.id)) then
            { p with
              stock := p.stock +
                stockDelta p.id (poItems.map (fun it => (it.productId, it.quantity))),
              lastUpdated := now }
          else p) ∧
      ∀ it ∈ poItems,
        stockDelta it.productId (poItems.map (fun j => (j.productId, j.quantity))) =
          it.quantity) ∧
    ((createSalesOrder db today now so soItems).2.products =
        db.products.map (fun p =>
          if soItems.any (fun it => decide (it.productId = p.id)) then
            { p with
              stock := p.stock +
                stockDelta p.id (soItems.map (fun it => (it.productId, -it.quantity))),
              lastUpdated := now }
          else p) ∧
      ∀ it ∈ soItems,
        stockDelta it.productId (soItems.map (fun j => (j.productId, -j.quantity))) =
          -it.quantity) := by
  refine ⟨⟨?_, ?_⟩, ⟨?_, ?_⟩⟩
  · have hprod : (createPurchaseOrder db today now po poItems).2.products =
        applyDeltasL now (poItems.map (fun it => (it.productId, it.quantity)))
          db.products := by
      rw [createPurchaseOrder_db_spec]
    rw [hprod, applyDeltasL_eq_map]
    apply List.map_congr_left
    intro p hp
    rw [applyDeltasP_eq, poItems_any_map]
  · intro it hit
    exact stockDelta_of_pairwise (fun j => j.productId) (fun j => j.quantity)
      poItems hpo it hit
  · have hprod : (createSalesOrder db today now so soItems).2.products =
        applyDeltasL now (soItems.map (fun it => (it.productId, -it.quantity)))
          db.products := by
      rw [createSalesOrder_db_spec]
    rw [hprod, applyDeltasL_eq_map]
    apply List.map_congr_left
    intro p hp
    rw [applyDeltasP_eq, soItems_any_map]
  · intro it hit
    exact stockDelta_of_pairwise (fun j => j.productId) (fun j => -j.quantity)
      soItems hso it hit

/-- C3: creating an order (purchase, sales, or return) and immediately
deleting it by the returned id restores every product's stock, removes the
order row, and removes all of its item rows, provided the serial ids the
create allocates are fresh (which the `serial` allocator guarantees). -/
theorem create_delete_roundtrip_spec (db : DB) (today : CalDate) (now now2 : Nat)
    (po : InsertPurchaseOrder) (poItems : List InsertPurchaseOrderItem)
    (so : InsertSalesOrder) (soItems : List InsertSalesOrderItem)
    (pr : InsertProductReturn) (prItems : List InsertReturnItem)
    (h1 : ∀ o ∈ db.purchaseOrders, o.id ≠ db.nextPurchaseOrderId)
    (h2 : ∀ it ∈ db.purchaseOrderItems, it.purchaseOrderId ≠ db.nextPurchaseOrderId)
    (h3 : ∀ o ∈ db.salesOrders, o.id ≠ db.nextSalesOrderId)
    (h4 : ∀ it ∈ db.salesOrderItems, it.salesOrderId ≠ db.nextSalesOrderId)
    (h5 : ∀ r ∈ db.productReturns, r.id ≠ db.nextProductReturnId)
    (h6 : ∀ it ∈ db.returnItems, it.returnId ≠ db.nextProductReturnId) :
    ((deletePurchaseOrder (createPurchaseOrder db today now po poItems).2 now2
        (createPurchaseOrder db today now po poItems).1.id).purchaseOrders =
        db.purchaseOrders ∧
      (deletePurchaseOrder (createPurchaseOrder db today now po poItems).2 now2
        (createPurchaseOrder db today now po poItems).1.id).purchaseOrderItems =
        db.purchaseOrderItems ∧
      (deletePurchaseOrder (createPurchaseOrder db today now po poItems).2 now2
        (createPurchaseOrder db today now po poItems).1.id).products.map
          (fun p => (p.id, p.stock)) =
        db.products.map (fun p => (p.id, p.stock))) ∧
    ((deleteSalesOrder (createSalesOrder db today now so soItems).2 now2
        (createSalesOrder db today now so soItems).1.id).salesOrders =
        db.salesOrders ∧
      (deleteSalesOrder (createSalesOrder db today now so soItems).2 now2
        (createSalesOrder db today now so soItems).1.id).salesOrderItems =
        db.salesOrderItems ∧
      (deleteSalesOrder (createSalesOrder db today now so soItems).2 now2
        (createSalesOrder db today now so soItems).1.id).products.map
          (fun p => (p.id, p.stock)) =
        db.products.map (fun p => (p.id, p.stock))) ∧
    ((deleteProductReturn (createProductReturn db today now pr prItems).2 now2
        (createProductReturn db today now pr prItems).1.id).productReturns =
        db.productReturns ∧
      (deleteProductReturn (createProductReturn db today now pr prItems).2 now2
        (createProductReturn db today now pr prItems).1.id).returnItems =
        db.returnItems ∧
      (deleteProductReturn (createProductReturn db today now pr prItems).2 now2
        (createProductReturn db today now pr prItems).1.id).products.map
          (fun p => (p.id, p.stock)) =
        db.products.map (fun p => (p.id, p.stock))) :=
  ⟨po_roundtrip db today now now2 po poItems h1 h2,
   so_roundtrip db today now now2 so soItems h3 h4,
   ret_roundtrip db today now now2 pr prItems h5 h6⟩

/-- C4: a route guarded by `checkRole(roles)` responds 401 "Unauthorized"
to unauthenticated requests and 403 "Forbidden" to authenticated requests
whose role is not in `roles`; in both cases the handler never runs (the
result does not depend on it) and the database is unchanged; only when the
role is allowed does the handler produce the result. -/
theorem checkRole_spec (roles : List String)
    (handler : AuthReq → DB → DB × ApiResponse) (req : AuthReq) (db : DB) :
    guardedRoute roles handler req db =
      if req.isAuthenticated = false then
        (db, { status := 401, message := "Unauthorized" })
      else if roles.contains req.userRole = false then
        (db, { status := 403, message := "Forbidden" })
      else handler req db := by
  cases h1 : req.isAuthenticated
  · simp [guardedRoute, checkRole, h1]
  · cases h2 : roles.contains req.userRole
    · have h2m : ¬ req.userRole ∈ roles := by simpa using h2
      simp [guardedRoute, checkRole, h1, h2, h2m]
    · have h2m : req.userRole ∈ roles := by simpa using h2
      simp [guardedRoute, checkRole, h1, h2, h2m]

/-- A sample product used by the concrete witnesses. -/
def prodW1 : Product :=
  { id := 1, code := "P1", name := "Widget", categoryId := 1, costPrice := 10,
    sellPrice := 15, stock := 5, lastUpdated := 0, createdAt := 0 }

/-- A second sample product. -/
def prodW2 : Product :=
  { id := 2, code := "P2", name := "Gadget", categoryId := 1, costPrice := 20,
    sellPrice := 30, stock := 8, lastUpdated := 0, createdAt := 0 }

/-- A small concrete database used by the witnesses. -/
def dbW : DB :=
  { categories := [{ id := 1, name := "General", description := none, createdAt := 0 }],
    products := [prodW1, prodW2],
    customers := [{ id := 1, code := "C1", name := "Alice", phone := "1",
                    address := "A", createdAt := 0 }],
    vendors := [{ id := 1, code := "V1", name := "Acme", phone := "2",
                  address := "B", createdAt := 0 }],
    purchaseOrders := [], purchaseOrderItems := [],
    salesOrders := [], salesOrderItems := [],
    productReturns := [], returnItems := [],
    nextPurchaseOrderId := 1, nextPurchaseOrderItemId := 1,
    nextSalesOrderId := 1, nextSalesOrderItemId := 1,
    nextProductReturnId := 1, nextReturnItemId := 1 }

/-- A sample purchase-order payload. -/
def poW : InsertPurchaseOrder :=
  { vendorId := 1, date := ⟨2024, 6, 1⟩, totalAmount := 100, status := "pending",
    dueDate := none, notes := none, createdBy := 1 }

/-- A sample purchase-order item payload. -/
def poItemW : InsertPurchaseOrderItem :=
  { productId := 1, quantity := 3, price := 10, total := 30 }

/-- A sample sales-order payload. -/
def soW : InsertSalesOrder :=
  { customerId := 1, date := ⟨2024, 6, 1⟩, totalAmount := 45, paymentStatus := "unpaid",
    dueDate := none, notes := none, createdBy := 1 }

/-- A sample sales-order item payload. -/
def soItemW : InsertSalesOrderItem :=
  { productId := 1, quantity := 2, price := 15, total := 30 }

/-- A sample product-return payload. -/
def prW : InsertProductReturn :=
  { customerId := 1, salesOrderId := none, date := ⟨2024, 6, 1⟩, totalAmount := 15,
    status := "pending", notes := none, createdBy := 1 }

/-- A sample return item payload. -/
def prItemW : InsertReturnItem :=
  { productId := 1, quantity := 1, price := 15, total := 15 }

/-- Witness for C2 at a concrete one-item order. -/
theorem create_stock_adjustment_spec_witness :
    List.Pairwise (fun a b : InsertPurchaseOrderItem => a.productId ≠ b.productId)
      [poItemW] ∧
    List.Pairwise (fun a b : InsertSalesOrderItem => a.productId ≠ b.productId)
      [soItemW] ∧
    (createPurchaseOrder dbW ⟨2024, 6, 1⟩ 1 poW [poItemW]).2.products =
      dbW.products.map (fun p =>
        if [poItemW].any (fun it => decide (it.productId = p.id)) then
          { p with
            stock := p.stock +
              stockDelta p.id ([poItemW].map (fun it => (it.productId, it.quantity))),
            lastUpdated := 1 }
        else p) :=
  ⟨by simp, by simp,
   ((create_stock_adjustment_spec dbW ⟨2024, 6, 1⟩ 1 poW [poItemW] soW [soItemW]
      (by simp) (by simp)).1).1⟩

/-- Witness for C3 at the concrete database (all serial ids are fresh). -/
theorem create_delete_roundtrip_spec_witness :
    (∀ o ∈ dbW.purchaseOrders, o.id ≠ dbW.nextPurchaseOrderId) ∧
    (∀ it ∈ dbW.purchaseOrderItems, it.purchaseOrderId ≠ dbW.nextPurchaseOrderId) ∧
    (∀ o ∈ dbW.salesOrders, o.id ≠ dbW.nextSalesOrderId) ∧
    (∀ it ∈ dbW.salesOrderItems, it.salesOrderId ≠ dbW.nextSalesOrderId) ∧
    (∀ r ∈ dbW.productReturns, r.id ≠ dbW.nextProductReturnId) ∧
    (∀ it ∈ dbW.returnItems, it.returnId ≠ dbW.nextProductReturnId) ∧
    (deleteSalesOrder (createSalesOrder dbW ⟨2024, 6, 1⟩ 1 soW [soItemW]).2 2
        (createSalesOrder dbW ⟨2024, 6, 1⟩ 1 soW [soItemW]).1.id).products.map
        (fun p => (p.id, p.stock)) =
      dbW.products.map (fun p => (p.id, p.stock)) :=
  ⟨by simp [dbW], by simp [dbW], by simp [dbW], by simp [dbW], by simp [dbW],
   by simp [dbW],
   ((create_delete_roundtrip_spec dbW ⟨2024, 6, 1⟩ 1 2 poW [poItemW] soW [soItemW]
      prW [prItemW] (by simp [dbW]) (by simp [dbW]) (by simp [dbW]) (by simp [dbW])
      (by simp [dbW]) (by simp [dbW])).2).1.2.2⟩

/-- C9: `updateProductStock` throws exactly when the product select finds
no row or the adjusted stock would be negative; a throw happens before any
write, so the state is unchanged; on success the product's stock becomes
old stock plus the change (with a fresh `lastUpdated`) and every other
product row is untouched. -/
theorem updateProductStock_spec (db : DB) (now : Nat) (id : Nat)
    (quantityChange : Int) :
    ((∃ e, (updateProductStock db now id quantityChange).1 = Except.error e) ↔
      db.products.find? (fun p => decide (p.id = id)) = none ∨
        ∃ pr, db.products.find? (fun p => decide (p.id = id)) = some pr ∧
          pr.stock + quantityChange < 0) ∧
    (∀ e, (updateProductStock db now id quantityChange).1 = Except.error e →
      (updateProductStock db now id quantityChange).2 = db) ∧
    (∀ pr, db.products.find? (fun p => decide (p.id = id)) = some pr →
      0 ≤ pr.stock + quantityChange →
      (updateProductStock db now id quantityChange).1 =
        Except.ok { pr with stock := pr.stock + quantityChange, lastUpdated := now } ∧
      (updateProductStock db now id quantityChange).2.products =
        db.products.map (fun q =>
          if q.id = id then
            { q with stock := pr.stock + quantityChange, lastUpdated := now }
          else q)) := by
  cases hfind : db.products.find? (fun p => decide (p.id = id)) with
  | none =>
    refine ⟨?_, ?_, ?_⟩
    · constructor
      · intro _; exact Or.inl rfl
      · intro _; exact ⟨"Product not found", by simp [updateProductStock, hfind]⟩
    · intro e _; simp [updateProductStock, hfind]
    · intro pr hp; cases hp
  | some p0 =>
    by_cases hneg : p0.stock + quantityChange < 0
    · refine ⟨?_, ?_, ?_⟩
      · constructor
        · intro _; exact Or.inr ⟨p0, rfl, hneg⟩
        · intro _
          exact ⟨"Cannot reduce stock below zero",
            by simp [updateProductStock, hfind, hneg]⟩
      · intro e _; simp [updateProductStock, hfind, hneg]
      · intro pr hp hge
        injection hp with hp; subst hp
        exact absurd hneg (not_lt.mpr hge)
    · refine ⟨?_, ?_, ?_⟩
      · constructor
        · rintro ⟨e, he⟩
          simp [updateProductStock, hfind, hneg] at he
        · rintro (hnone | ⟨pr, hp, hlt⟩)
          · cases hnone
          · injection hp with hp; subst hp
            exact absurd hlt hneg
      · intro e he
        simp [updateProductStock, hfind, hneg] at he
      · intro pr hp hge
        injection hp with hp; subst hp
        constructor
        · simp [updateProductStock, hfind, hneg]
        · simp [updateProductStock, hfind, hneg]

/-- Witness for C9: a successful stock decrement on the sample database. -/
theorem updateProductStock_spec_witness :
    dbW.products.find? (fun p => decide (p.id = 1)) = some prodW1 ∧
    (0 : Int) ≤ prodW1.stock + (-3) ∧
    (updateProductStock dbW 7 1 (-3)).1 =
      Except.ok { prodW1 with stock := prodW1.stock + (-3), lastUpdated := 7 } :=
  ⟨rfl, by decide,
   ((updateProductStock_spec dbW 7 1 (-3)).2.2 prodW1 rfl (by decide)).1⟩

theorem cogs_foldl_eq_sum (db : DB) (l : List SalesOrderItem) (c : Rat) :
    l.foldl (fun acc item =>
      match db.products.find? (fun p => decide (p.id = item.productId)) with
      | some product => acc + product.costPrice * (item.quantity : Rat)
      | none => acc) c =
      c + (l.map (fun item =>
        productCostPrice db item.productId * (item.quantity : Rat))).sum := by
  induction l generalizing c with
  | nil => simp
  | cons a l ih =>
    rw [List.foldl_cons, List.map_cons, List.sum_cons, ih]
    cases hfind : db.products.find? (fun p => decide (p.id = a.productId)) with
    | none => simp [productCostPrice, hfind]
    | some product => simp [productCostPrice, hfind]; ring

/-- C6: the profit-loss report's `totalSales` is the sum of the month's
sales-order totals, `totalCogs` the sum over the month's sales-order items
of the product's current cost price times the item quantity,
`grossProfit = totalSales - totalCogs`, `totalReturns` the sum of the
month's return totals, `netProfit = grossProfit - totalReturns`, and each
sum is 0 when no rows match. -/
theorem profitLoss_spec (db : DB) (month year : Nat) :
    (getProfitLossReport db month year).totalSales =
      ((db.salesOrders.filter (fun o => inMonth o.date month year)).map
        (fun o => o.totalAmount)).sum ∧
    (getProfitLossReport db month year).totalCogs =
      ((monthSalesItems db month year).map
        (fun item => productCostPrice db item.productId * (item.quantity : Rat))).sum ∧
    (getProfitLossReport db month year).grossProfit =
      (getProfitLossReport db month year).totalSales -
        (getProfitLossReport db month year).totalCogs ∧
    (getProfitLossReport db month year).totalReturns =
      ((db.productReturns.filter (fun r => inMonth r.date month year)).map
        (fun r => r.totalAmount)).sum ∧
    (getProfitLossReport db month year).netProfit =
      (getProfitLossReport db month year).grossProfit -
        (getProfitLossReport db month year).totalReturns ∧
    (db.salesOrders.filter (fun o => inMonth o.date month year) = [] →
      (getProfitLossReport db month year).totalSales = 0) ∧
    (db.productReturns.filter (fun r => inMonth r.date month year) = [] →
      (getProfitLossReport db month year).totalReturns = 0) := by
  refine ⟨rfl, ?_, rfl, rfl, rfl, ?_, ?_⟩
  · show (monthSalesItems db month year).foldl _ 0 = _
    rw [cogs_foldl_eq_sum, zero_add]
  · intro h
    have hs : (getProfitLossReport db month year).totalSales =
        ((db.salesOrders.filter (fun o => inMonth o.date month year)).map
          (fun o => o.totalAmount)).sum := rfl
    rw [hs, h]
    rfl
  · intro h
    have hr : (getProfitLossReport db month year).totalReturns =
        ((db.productReturns.filter (fun r => inMonth r.date month year)).map
          (fun r => r.totalAmount)).sum := rfl
    rw [hr, h]
    rfl

/-- Witness for C6 at a month with no data in the sample database. -/
theorem profitLoss_spec_witness :
    dbW.salesOrders.filter (fun o => inMonth o.date 1 2024) = [] ∧
    (getProfitLossReport dbW 1 2024).totalSales = 0 ∧
    dbW.productReturns.filter (fun r => inMonth r.date 1 2024) = [] ∧
    (getProfitLossReport dbW 1 2024).totalReturns = 0 :=
  ⟨rfl, (profitLoss_spec dbW 1 2024).2.2.2.2.2.1 rfl,
   rfl, (profitLoss_spec dbW 1 2024).2.2.2.2.2.2 rfl⟩

/-- C7: every inventory-report row carries `totalValue = stock * costPrice`
taken from its product, the report has exactly one row per product, and the
dashboard's `totalInventoryValue` is the sum of `stock * costPrice` over
all products, which equals the sum of the report's `totalValue` column and
is 0 when there are no products. -/
theorem inventory_valuation_spec (db : DB) (today : CalDate) :
    ((getInventoryReport db).map (fun r => r.id)).Perm
      (db.products.map (fun p => p.id)) ∧
    (getInventoryReport db).length = db.products.length ∧
    (∀ r ∈ getInventoryReport db, ∃ p ∈ db.products,
      p.id = r.id ∧ r.stock = p.stock ∧ r.costPrice = p.costPrice ∧
        r.totalValue = (p.stock : Rat) * p.costPrice) ∧
    (getDashboardStats db today).totalInventoryValue =
      (db.products.map (fun p => (p.stock : Rat) * p.costPrice)).sum ∧
    ((getInventoryReport db).map (fun r => r.totalValue)).sum =
      (getDashboardStats db today).totalInventoryValue ∧
    (db.products = [] → (getDashboardStats db today).totalInventoryValue = 0) := by
  have hperm : (List.insertionSort invRowLe (db.products.map (invRowOf db))).Perm
      (db.products.map (invRowOf db)) := List.perm_insertionSort _ _
  refine ⟨?_, ?_, ?_, rfl, ?_, ?_⟩
  · have h1 : (getInventoryReport db).map (fun r => r.id) =
        (List.insertionSort invRowLe (db.products.map (invRowOf db))).map
          (fun item => item.id) := by
      unfold getInventoryReport
      rw [List.map_map]
      rfl
    have h2 : (db.products.map (invRowOf db)).map (fun item => item.id) =
        db.products.map (fun p => p.id) := by
      rw [List.map_map]
      rfl
    rw [h1, ← h2]
    exact hperm.map _
  · unfold getInventoryReport
    rw [List.length_map, hperm.length_eq, List.length_map]
  · intro r hr
    unfold getInventoryReport at hr
    obtain ⟨item, hitem, rfl⟩ := List.mem_map.mp hr
    have hrow : item ∈ db.products.map (invRowOf db) := hperm.mem_iff.mp hitem
    obtain ⟨p, hp, rfl⟩ := List.mem_map.mp hrow
    exact ⟨p, hp, rfl, rfl, rfl, rfl⟩
  · have h1 : ((getInventoryReport db).map (fun r => r.totalValue)).sum =
        ((List.insertionSort invRowLe (db.products.map (invRowOf db))).map
          (fun item => (item.stock : Rat) * item.costPrice)).sum := by
      unfold getInventoryReport
      rw [List.map_map]
      rfl
    have h2 : ((List.insertionSort invRowLe (db.products.map (invRowOf db))).map
        (fun item => (item.stock : Rat) * item.costPrice)).sum =
        ((db.products.map (invRowOf db)).map
          (fun item => (item.stock : Rat) * item.costPrice)).sum :=
      (hperm.map _).sum_eq
    have h3 : ((db.products.map (invRowOf db)).map
        (fun item => (item.stock : Rat) * item.costPrice)).sum =
        (db.products.map (fun p => (p.stock : Rat) * p.costPrice)).sum := by
      rw [List.map_map]
      rfl
    rw [h1, h2, h3]
    rfl
  · intro h
    have hv : (getDashboardStats db today).totalInventoryValue =
        (db.products.map (fun p => (p.stock : Rat) * p.costPrice)).sum := rfl
    rw [hv, h]
    rfl

/-- Witness for C7: the empty-products implication at a concrete database
with no products. -/
theorem inventory_valuation_spec_witness :
    (getInventoryReport dbW).length = dbW.products.length ∧
    ({ dbW with products := [] } : DB).products = [] ∧
    (getDashboardStats { dbW with products := [] } ⟨2024, 6, 1⟩).totalInventoryValue = 0 :=
  ⟨(inventory_valuation_spec dbW ⟨2024, 6, 1⟩).2.1,
   rfl,
   (inventory_valuation_spec { dbW with products := [] } ⟨2024, 6, 1⟩).2.2.2.2.2 rfl⟩

/-- C10: `getLowStockProducts` returns exactly the products with
`stock < threshold` (as a permutation of that filter), sorted by ascending
stock, and the low-stock route substitutes threshold 5 when the path
parameter does not parse (`none`) or parses to 0. -/
theorem lowStock_spec (db : DB) (t : Int) (ht : t ≠ 0) :
    ((getLowStockProducts db t).map (fun r => r.id)).Perm
      ((db.products.filter (fun p => decide (p.stock < t))).map (fun p => p.id)) ∧
    List.Sorted (fun a b : LowStockRow => a.stock ≤ b.stock)
      (getLowStockProducts db t) ∧
    (∀ r ∈ getLowStockProducts db t, r.stock < t) ∧
    lowStockRoute db none = getLowStockProducts db 5 ∧
    lowStockRoute db (some 0) = getLowStockProducts db 5 ∧
    lowStockRoute db (some t) = getLowStockProducts db t := by
  have hperm : (List.insertionSort (fun a b : LowStockRow => a.stock ≤ b.stock)
      ((db.products.filter (fun p => decide (p.stock < t))).map (lowStockRowOf db))).Perm
      ((db.products.filter (fun p => decide (p.stock < t))).map (lowStockRowOf db)) :=
    List.perm_insertionSort _ _
  refine ⟨?_, ?_, ?_, rfl, rfl, ?_⟩
  · have h1 : ((db.products.filter (fun p => decide (p.stock < t))).map
        (lowStockRowOf db)).map (fun r => r.id) =
        (db.products.filter (fun p => decide (p.stock < t))).map (fun p => p.id) := by
      rw [List.map_map]
      rfl
    rw [← h1]
    exact hperm.map _
  · haveI : IsTotal LowStockRow (fun a b => a.stock ≤ b.stock) :=
      ⟨fun a b => Int.le_total _ _⟩
    haveI : IsTrans LowStockRow (fun a b => a.stock ≤ b.stock) :=
      ⟨fun _ _ _ hab hbc => le_trans hab hbc⟩
    exact List.sorted_insertionSort _ _
  · intro r hr
    have hrow : r ∈ (db.products.filter (fun p => decide (p.stock < t))).map
        (lowStockRowOf db) := hperm.mem_iff.mp hr
    obtain ⟨p, hp, rfl⟩ := List.mem_map.mp hrow
    exact of_decide_eq_true (List.mem_filter.mp hp).2
  · show getLowStockProducts db (if t = 0 then 5 else t) = getLowStockProducts db t
    rw [if_neg ht]

/-- Witness for C10 at a concrete nonzero threshold. -/
theorem lowStock_spec_witness :
    (3 : Int) ≠ 0 ∧ lowStockRoute dbW (some 3) = getLowStockProducts dbW 3 :=
  ⟨by decide, (lowStock_spec dbW 3 (by decide)).2.2.2.2.2⟩

/-- A purchase order with status "completed" (not payable) used to exhibit
the accounts-payable filter overwrite. -/
def poCompletedW : PurchaseOrder :=
  { id := 1, orderNumber := "PO20240510001", vendorId := 1, date := ⟨2024, 5, 10⟩,
    totalAmount := 100, status := "completed", dueDate := none, notes := none,
    createdAt := 0, createdBy := 1 }

/-- A fully paid sales order (not receivable) for the same exhibit. -/
def soPaidW : SalesOrder :=
  { id := 1, orderNumber := "SO20240510001", customerId := 1, date := ⟨2024, 5, 10⟩,
    totalAmount := 100, paymentStatus := "paid", dueDate := none, notes := none,
    createdAt := 0, createdBy := 1 }

/-- Database whose only purchase order is completed and whose only sales
order is paid. -/
def dbSettledW : DB :=
  { dbW with purchaseOrders := [poCompletedW], nextPurchaseOrderId := 2,
             salesOrders := [soPaidW], nextSalesOrderId := 2 }

/-- C5 exhibit: with no date bounds the payable/receivable reports are
empty (the status filter applies), but passing a start date makes the later
`.where()` call replace the status filter, so the completed purchase order
and the paid sales order appear in the reports. -/
theorem accountsReports_drop_status_filter :
    (getAccountsPayable dbSettledW ⟨2024, 6, 1⟩ none none).map (fun r => r.status) = [] ∧
    (getAccountsPayable dbSettledW ⟨2024, 6, 1⟩ (some ⟨2024, 1, 1⟩) none).map
      (fun r => r.status) = ["completed"] ∧
    (getAccountsReceivable dbSettledW ⟨2024, 6, 1⟩ none none).map (fun r => r.status) = [] ∧
    (getAccountsReceivable dbSettledW ⟨2024, 6, 1⟩ (some ⟨2024, 1, 1⟩) none).map
      (fun r => r.status) = ["paid"] := by
  decide

/-- Drawing on page 0 preserves the invariant that every recorded text
targets page 0. -/
theorem drawText_pageIdx_inv (st : PdfState) (x y size : Rat) (font text : String)
    (h : ∀ dt ∈ st.texts, dt.pageIdx = 0) :
    ∀ dt ∈ (drawText st 0 x y size font text).texts, dt.pageIdx = 0 := by
  intro dt hdt
  rcases List.mem_append.mp hdt with h5 | h6
  · exact h dt h5
  · rw [List.mem_singleton.mp h6]

/-- The item loop only ever draws on page index 0. -/
theorem pdfItemLoop_pageIdx (items : List PdfItem) (acc : PdfState × Rat)
    (h : ∀ dt ∈ acc.1.texts, dt.pageIdx = 0) :
    ∀ dt ∈ (pdfItemLoop items acc).1.texts, dt.pageIdx = 0 := by
  induction items generalizing acc with
  | nil => exact h
  | cons a l ih =>
    show ∀ dt ∈ (pdfItemLoop l _).1.texts, dt.pageIdx = 0
    apply ih
    dsimp only
    by_cases hy : acc.2 - 20 < 100
    · simp only [if_pos hy]
      refine drawText_pageIdx_inv _ _ _ _ _ _ ?_
      refine drawText_pageIdx_inv _ _ _ _ _ _ ?_
      refine drawText_pageIdx_inv _ _ _ _ _ _ ?_
      exact drawText_pageIdx_inv _ _ _ _ _ _ h
    · simp only [if_neg hy]
      refine drawText_pageIdx_inv _ _ _ _ _ _ ?_
      refine drawText_pageIdx_inv _ _ _ _ _ _ ?_
      refine drawText_pageIdx_inv _ _ _ _ _ _ ?_
      exact drawText_pageIdx_inv _ _ _ _ _ _ h

/-- The report-row loop only ever draws on page index 0. -/
theorem pdfRowLoop_pageIdx (rows : List String) (acc : PdfState × Rat)
    (h : ∀ dt ∈ acc.1.texts, dt.pageIdx = 0) :
    ∀ dt ∈ (pdfRowLoop rows acc).1.texts, dt.pageIdx = 0 := by
  induction rows generalizing acc with
  | nil => exact h
  | cons a l ih =>
    show ∀ dt ∈ (pdfRowLoop l _).1.texts, dt.pageIdx = 0
    apply ih
    dsimp only
    by_cases hy : acc.2 - 20 < 100
    · simp only [if_pos hy]
      exact drawText_pageIdx_inv _ _ _ _ _ _ h
    · simp only [if_neg hy]
      exact drawText_pageIdx_inv _ _ _ _ _ _ h

/-- Every text `generatePDF` ever draws targets page index 0: the source
binds `page` to the first page once and never rebinds it, so pages added on
overflow receive no content. -/
theorem generatePDF_pageIdx (t todayStr : String) (data : PdfData) :
    ∀ dt ∈ (generatePDF t todayStr data).texts, dt.pageIdx = 0 := by
  have h0 : ∀ dt ∈ (({ numPages := 1, texts := [] } : PdfState)).texts,
      dt.pageIdx = 0 := by intro dt hdt; cases hdt
  unfold generatePDF
  by_cases h1 : t = "invoice" ∨ t = "receipt"
  · rw [if_pos h1]
    refine drawText_pageIdx_inv _ _ _ _ _ _ ?_
    refine drawText_pageIdx_inv _ _ _ _ _ _ ?_
    refine drawText_pageIdx_inv _ _ _ _ _ _ ?_
    refine pdfItemLoop_pageIdx data.items _ ?_
    refine drawText_pageIdx_inv _ _ _ _ _ _ ?_
    refine drawText_pageIdx_inv _ _ _ _ _ _ ?_
    refine drawText_pageIdx_inv _ _ _ _ _ _ ?_
    refine drawText_pageIdx_inv _ _ _ _ _ _ ?_
    refine drawText_pageIdx_inv _ _ _ _ _ _ ?_
    refine drawText_pageIdx_inv _ _ _ _ _ _ ?_
    refine drawText_pageIdx_inv _ _ _ _ _ _ ?_
    refine drawText_pageIdx_inv _ _ _ _ _ _ ?_
    refine drawText_pageIdx_inv _ _ _ _ _ _ ?_
    exact drawText_pageIdx_inv _ _ _ _ _ _ h0
  · rw [if_neg h1]
    by_cases h2 : t = "report"
    · rw [if_pos h2]
      refine drawText_pageIdx_inv _ _ _ _ _ _ ?_
      refine pdfRowLoop_pageIdx data.rows _ ?_
      refine drawText_pageIdx_inv _ _ _ _ _ _ ?_
      refine drawText_pageIdx_inv _ _ _ _ _ _ ?_
      exact drawText_pageIdx_inv _ _ _ _ _ _ h0
    · rw [if_neg h2]
      refine drawText_pageIdx_inv _ _ _ _ _ _ ?_
      refine drawText_pageIdx_inv _ _ _ _ _ _ ?_
      refine drawText_pageIdx_inv _ _ _ _ _ _ ?_
      exact drawText_pageIdx_inv _ _ _ _ _ _ h0

/-- A one-line invoice item, repeated 27 times to overflow the first page. -/
def pdfItemW : PdfItem :=
  { productName := "X", quantity := 1, price := 1, total := 1 }

/-- Invoice data with 27 items: after the 26th item line `y` drops to
`91.89 < 100`, which triggers the page break. -/
def pdfDataW : PdfData :=
  { title := "INVOICE", entityType := "Customer", entityName := "Alice",
    documentNumber := "SO20240601001", date := "2024-06-01",
    items := [pdfItemW, pdfItemW, pdfItemW, pdfItemW, pdfItemW, pdfItemW,
              pdfItemW, pdfItemW, pdfItemW, pdfItemW, pdfItemW, pdfItemW,
              pdfItemW, pdfItemW, pdfItemW, pdfItemW, pdfItemW, pdfItemW,
              pdfItemW, pdfItemW, pdfItemW, pdfItemW, pdfItemW, pdfItemW,
              pdfItemW, pdfItemW, pdfItemW],
    totalAmount := 27, rows := [] }

/-- C8 exhibit: on the 27-item invoice a second A4 page is added, yet every
drawn text (for every input whatsoever) targets the first page, so the
lines after the overflow are drawn at the top of the FIRST page and the
added page stays blank. -/
theorem generatePDF_overflow_stays_on_first_page :
    (∀ (t todayStr : String) (data : PdfData),
      (generatePDF t todayStr data).texts.all
        (fun dt => decide (dt.pageIdx = 0)) = true) ∧
    (generatePDF "invoice" "2024-06-01" pdfDataW).numPages = 2 := by
  constructor
  · intro t todayStr data
    rw [List.all_eq_true]
    intro dt hdt
    simpa using generatePDF_pageIdx t todayStr data dt hdt
  · norm_num [generatePDF, pdfItemLoop, pdfDataW, pdfItemW, drawText, a4Height, a4Width]
